import Mathlib

/-!
Verification development for the `astro-orga` presentation generator
(`scripts/generate-presentation.ts`).

The pure computations of the script (activity sorting, QR-code configuration,
layout-tree construction) are embedded directly as Lean functions.  The
stateful pipeline (font caching, slide rasters, PDF assembly, cleanup) is
embedded as explicit state passing over a file-system model `FS`, with an
`Env` record supplying the behaviour of the two external effects that can
fail independently of file contents: the python font-instancing subprocess
and `unlink`.

External rendering libraries (satori, resvg, qrcode-svg, pdf-lib) are opaque
deterministic collaborators in the source; they are embedded as pure
constructors that capture their exact input configuration (`SvgDoc`,
`Content.png`, `QRSvg`, `Content.pdf`).  Binary payloads are represented by
the `Content` type; base64 data-URI embedding (an injective encoding of the
payload) is represented by carrying the payload itself in `ImageSrc`.

Strings are manipulated through their character lists (`String.data`) where
the development needs kernel-computable functions; the JavaScript
`str.split(':')`, `Number(...)` (on decimal-digit strings, the only inputs the
claims quantify over), `localeCompare` (on ASCII strings), `endsWith` and
path concatenation are modelled by `splitChar`, `digitsToNat`, `localeCompare`,
`strEndsWith` and `++` respectively.
-/

/-! ## Small string and number helpers (modelling the JavaScript primitives) -/

/-- JavaScript `String.prototype.split` with a single-character separator,
on character lists: `splitChar ':' "a:b".data = ["a".data, "b".data]`. -/
def splitChar (sep : Char) : List Char → List (List Char)
  | [] => [[]]
  | c :: rest =>
    let r := splitChar sep rest
    if c = sep then [] :: r
    else
      match r with
      | [] => [[c]]
      | h :: t => (c :: h) :: t

/-- Decimal value of a digit string, as produced by JavaScript
`Number(...)` on strings of decimal digits (the shape the claims
quantify over: the hour field of an `"HH:MM"` time). -/
def digitsToNat (l : List Char) : Nat :=
  l.foldl (fun n c => n * 10 + (c.toNat - 48)) 0

/-- Strict lexicographic comparison of character lists by code point;
this is what JavaScript `localeCompare` computes on the ASCII time
strings used by the schedule data. -/
def lexLt : List Char → List Char → Bool
  | [], [] => false
  | [], _ :: _ => true
  | _ :: _, [] => false
  | a :: as, b :: bs =>
    if a.toNat < b.toNat then true
    else if b.toNat < a.toNat then false
    else lexLt as bs

/-- JavaScript `a.endsWith(b)`, computed on character lists. -/
def strEndsWith (s suffix : String) : Bool :=
  decide (suffix.data.reverse <+: s.data.reverse)

/-- JavaScript `Math.round` (round half toward positive infinity). -/
def jsRound (q : ℚ) : Int :=
  (q + 1 / 2).floor

/-- Hexadecimal rendering of a natural number, as JavaScript
`n.toString(16)` (lowercase digits). -/
def natToHex (n : Nat) : String :=
  String.mk (Nat.toDigits 16 n)

/-- JavaScript `hex.padStart(2, '0')`. -/
def padStart2 (s : String) : String :=
  if s.length ≥ 2 then s else if s.length = 1 then "0" ++ s else "00"

/-! ## Design constants (verbatim from the script) -/

def WIDTH : Nat := 3840

def HEIGHT : Nat := 2160

structure Colors where
  bg : String
  blue : String
  deepBlue : String
  indigo : String
  cyan : String
  text : String
  textSecondary : String

def COLORS : Colors :=
  { bg := "#000000"
    blue := "#2563eb"
    deepBlue := "#1e40af"
    indigo := "#4f46e5"
    cyan := "#0891b2"
    text := "#ffffff"
    textSecondary := "#a1a1a1" }

def ASSO_NAME : String := "Asso Info Evry"

def DISCORD_URL : String := "https://discord.gg/fxWsSSee"

def NDI_URL : String := "https://www.nuitdelinfo.com/"

def ASSO_URL : String := "https://asso.info-evry.fr"

def SUBJECT_URL : String :=
  "https://filesender.renater.fr/?s=download&token=1ee59758-cb41-400c-b6c2-47fc37e1804e"

/-- Controls how quickly orb opacity fades toward the edge
(`const ORB_GRADIENT_FADE = 0.4`). -/
def ORB_GRADIENT_FADE : ℚ := 0.4

structure OrbConfig where
  top : Option String
  left : Option String
  right : Option String
  bottom : Option String
  width : String
  height : String
  color : String
  opacity : ℚ

/-- Orb configuration for slides (`SLIDE_ORBS`). -/
def SLIDE_ORBS : List OrbConfig :=
  [ { top := some "-800px", left := none, right := some "-400px", bottom := none,
      width := "2400px", height := "2400px", color := COLORS.blue, opacity := 28 },
    { top := none, left := some "-600px", right := none, bottom := some "-1000px",
      width := "2800px", height := "2800px", color := COLORS.deepBlue, opacity := 22 },
    { top := some "40%", left := none, right := some "15%", bottom := none,
      width := "1600px", height := "1600px", color := COLORS.indigo, opacity := 18 },
    { top := some "-400px", left := some "5%", right := none, bottom := none,
      width := "1400px", height := "1400px", color := COLORS.cyan, opacity := 14 } ]

/-- Activity schedule record (`interface Activity`). -/
structure Activity where
  name : String
  room : String
  time : String
deriving DecidableEq, Repr

def SCHEDULED_ACTIVITIES : List Activity :=
  [ { name := "Kahoot", room := "Grand Amphi", time := "23:00" },
    { name := "Kahoot", room := "Grand Amphi", time := "00:00" } ]

/-- Untimed activity record (`interface MiscActivity`). -/
structure MiscActivity where
  name : String
  room : String

def MISC_ACTIVITIES : List MiscActivity :=
  [ { name := "Escape Game", room := "Salle 117" },
    { name := "Console & Jeux de societe", room := "Salle 111" },
    { name := "Film", room := "Grand Amphi" } ]

/-- Source `opacityToHex`: converts a percentage (possibly fractional, from
the gradient fade multiplication) to a two-digit lowercase hex byte. -/
def opacityToHex (opacity : ℚ) : String :=
  padStart2 (natToHex (jsRound (opacity / 100 * 255)).toNat)

/-! ## Activity sorting (`sortActivitiesByTime`) -/

/-- Hour field of a time string: `Number(time.split(':')[0])` — the first
colon-separated component read as a decimal number. -/
def timeHour (t : String) : Int :=
  Int.ofNat (digitsToNat ((splitChar ':' t.data).headD []))

/-- The overnight remap applied to the hour before comparison:
`aHour < 12 ? aHour + 24 : aHour`. -/
def timeSortKey (t : String) : Int :=
  let h := timeHour t
  if h < 12 then h + 24 else h

/-- JavaScript `a.localeCompare(b)` on ASCII strings: -1, 0 or 1 by
lexicographic code-point order. -/
def localeCompare (a b : String) : Int :=
  if lexLt a.data b.data then -1 else if lexLt b.data a.data then 1 else 0

/-- JavaScript `x || y` on numbers: `y` when `x` is `0`, else `x`. -/
def jsOrInt (x y : Int) : Int :=
  if x = 0 then y else x

/-- The comparator passed to `Array.prototype.sort`:
`(aSort - bSort) || a.time.localeCompare(b.time)`. -/
def activityCompare (a b : Activity) : Int :=
  let aSort := timeSortKey a.time
  let bSort := timeSortKey b.time
  jsOrInt (aSort - bSort) (localeCompare a.time b.time)

/-- An element `a` may be placed (weakly) before `b` by the sort exactly
when the comparator is non-positive. -/
def ActLE (a b : Activity) : Prop :=
  activityCompare a b ≤ 0

instance : DecidableRel ActLE :=
  fun a b => Int.decLe (activityCompare a b) 0

/-- Source `sortActivitiesByTime`: a stable sort of a copy of the input by
`activityCompare` (ECMAScript `Array.prototype.sort` is stable; a stable
insertion sort realises the same output list). -/
def sortActivitiesByTime (activities : List Activity) : List Activity :=
  List.insertionSort ActLE activities

/-! ## Layout trees, rasters and documents

The declarative JSX-like object trees handed to satori are embedded as
`Element`; the external renderers are embedded as constructors that capture
their full input, so "output bytes" of a render step are represented by the
render step's complete configuration (the renderers are deterministic
functions of it). -/

/-- Configuration of `new QRCode({...})` followed by `.svg()` in
`generateQRCode`; qrcode-svg is a deterministic serializer of this record. -/
structure QRSvg where
  content : String
  padding : Nat
  width : Nat
  height : Nat
  color : String
  background : String
  ecl : String

/-- Source `generateQRCode(url, size)`. -/
def generateQRCode (url : String) (size : Nat) : QRSvg :=
  { content := url
    padding := 0
    width := size
    height := size
    color := "#ffffff"
    background := "transparent"
    ecl := "M" }

/-- A CSS style value: string (`'56px'`) or numeric (`700`, `1.1`). -/
inductive SVal where
  | s (v : String)
  | n (v : ℚ)

/-- A style record, in JavaScript object-insertion order. -/
abbrev Style := List (String × SVal)

mutual

/-- Binary file contents: opaque bytes, a derived static font
(deterministic output of the font instancer for a source/weight pair), a
rendered PNG raster (satori output rasterized by resvg at a fit-to width,
with system fonts disabled), or a saved PDF document. -/
inductive Content where
  | bytes (tag : String)
  | derived (src : String) (weight : Nat)
  | png (doc : SvgDoc) (fitToWidth : Nat)
  | pdf (pages : List Page)

/-- One PDF page: its point-space dimensions and its drawn images. -/
inductive Page where
  | mk (width height : Nat) (draws : List Draw)

/-- One `page.drawImage(img, {x, y, width, height})` call. -/
inductive Draw where
  | mk (image : Content) (x y width height : Nat)

/-- The input captured by a `satori(element, {width, height, fonts})` call. -/
inductive SvgDoc where
  | mk (element : Element) (width height : Nat) (fonts : List FontSpec)

/-- One satori font entry `{name, data, weight, style}`. -/
inductive FontSpec where
  | mk (name : String) (data : Content) (weight : Nat) (style : String)

/-- A node of the declarative layout tree: a `div` with child nodes, a
`div` whose `children` is a string payload, or an `img`. -/
inductive Element where
  | div (style : Style) (children : List Element)
  | textDiv (style : Style) (text : String)
  | img (src : ImageSrc) (width height : Nat) (style : Style)

/-- An `img` `src` data URI: the base64 PNG embedding of a binary payload
(`data:image/png;base64,...`) or the base64 embedding of a QR SVG
(`data:image/svg+xml;base64,...`); base64 is injective, so the embedded
payload itself is carried. -/
inductive ImageSrc where
  | pngB64 (data : Content)
  | svgB64 (svg : QRSvg)

end

/-- The three derived font payloads returned by `loadFonts`. -/
structure Fonts where
  regular : Content
  medium : Content
  bold : Content

/-- The satori `fonts` option shared by every slide builder. -/
def satoriFonts (fonts : Fonts) : List FontSpec :=
  [ .mk "Cupertino" fonts.regular 400 "normal",
    .mk "Cupertino" fonts.medium 500 "normal",
    .mk "Cupertino" fonts.bold 700 "normal" ]

/-- Source `satori(element, {width, height, fonts})` — the external
markup-to-SVG renderer, a deterministic function of this captured input. -/
def satori (element : Element) (width height : Nat) (fonts : List FontSpec) : SvgDoc :=
  .mk element width height fonts

/-- Source `svgToPng`: resvg rasterization with `fitTo` width `WIDTH` and
system fonts disabled — a deterministic function of the SVG input. -/
def svgToPng (svg : SvgDoc) : Content :=
  .png svg WIDTH

/-! ## Shared sub-builders -/

/-- Style of one decorative orb (JavaScript object-insertion order: the
unconditional keys, then `top`, `bottom`, `left`, `right` when present). -/
def orbStyle (orb : OrbConfig) : Style :=
  let base : Style :=
    [ ("position", .s "absolute"),
      ("width", .s orb.width),
      ("height", .s orb.height),
      ("borderRadius", .s "50%"),
      ("background", .s ("radial-gradient(circle, " ++ orb.color ++ opacityToHex orb.opacity
        ++ " 0%, " ++ orb.color ++ opacityToHex (orb.opacity * ORB_GRADIENT_FADE)
        ++ " 50%, transparent 75%)")) ]
  let base := match orb.top with | some v => base ++ [("top", .s v)] | none => base
  let base := match orb.bottom with | some v => base ++ [("bottom", .s v)] | none => base
  let base := match orb.left with | some v => base ++ [("left", .s v)] | none => base
  let base := match orb.right with | some v => base ++ [("right", .s v)] | none => base
  base

/-- Source `generateOrbs`. -/
def generateOrbs : List Element :=
  SLIDE_ORBS.map (fun orb => .div (orbStyle orb) [])

/-- Source `createHeader`. -/
def createHeader : Element :=
  .div
    [ ("position", .s "absolute"), ("top", .s "96px"), ("left", .s "128px"),
      ("display", .s "flex"), ("alignItems", .s "center"), ("gap", .s "32px") ]
    [ .div
        [ ("width", .s "32px"), ("height", .s "32px"), ("borderRadius", .s "50%"),
          ("backgroundColor", .s COLORS.blue) ] [],
      .textDiv
        [ ("fontSize", .s "56px"), ("fontWeight", .n 500),
          ("color", .s COLORS.textSecondary), ("letterSpacing", .s "0.02em") ]
        ASSO_NAME ]

/-- Source `createGrid` (the `backgroundImage` value is the exact template
literal, newlines and indentation included). -/
def createGrid : Element :=
  .div
    [ ("position", .s "absolute"), ("top", .s "0"), ("left", .s "0"),
      ("right", .s "0"), ("bottom", .s "0"),
      ("backgroundImage", .s ("\n          linear-gradient(rgba(255, 255, 255, 0.03) 1px, transparent 1px),\n          linear-gradient(90deg, rgba(255, 255, 255, 0.03) 1px, transparent 1px)\n        ")),
      ("backgroundSize", .s "160px 160px") ]
    []

/-! ## Slide builders -/

/-- Source `generateTitleSlide`. -/
def generateTitleSlide (fonts : Fonts) (logoDataUrl : ImageSrc) : SvgDoc :=
  let element : Element :=
    .div
      [ ("width", .s "100%"), ("height", .s "100%"), ("display", .s "flex"),
        ("flexDirection", .s "column"), ("alignItems", .s "center"),
        ("justifyContent", .s "center"), ("backgroundColor", .s COLORS.bg),
        ("position", .s "relative"), ("overflow", .s "hidden") ]
      (generateOrbs ++ [createGrid] ++
        [ .div
            [ ("display", .s "flex"), ("flexDirection", .s "column"),
              ("alignItems", .s "center"), ("justifyContent", .s "center"),
              ("gap", .s "96px") ]
            [ .img logoDataUrl 400 400 [("objectFit", .s "contain")],
              .textDiv
                [ ("fontSize", .s "240px"), ("fontWeight", .n 700),
                  ("color", .s COLORS.text), ("textAlign", .s "center"),
                  ("letterSpacing", .s "-0.03em"), ("lineHeight", .n 1.1) ]
                ASSO_NAME,
              .textDiv
                [ ("fontSize", .s "80px"), ("fontWeight", .n 400),
                  ("color", .s COLORS.textSecondary), ("textAlign", .s "center") ]
                "Association des Etudiants en Informatique" ] ])
  satori element WIDTH HEIGHT (satoriFonts fonts)

/-- Source `generateQRSlide` (the shared two-column QR link slide). -/
def generateQRSlide (fonts : Fonts) (title subtitle url : String)
    (showHeader : Bool) : SvgDoc :=
  let qrSize : Nat := 800
  let qrDataUrl : ImageSrc := .svgB64 (generateQRCode url qrSize)
  let children : List Element :=
    generateOrbs ++ [createGrid] ++ (if showHeader then [createHeader] else []) ++
      [ .div
          [ ("display", .s "flex"), ("flexDirection", .s "row"),
            ("alignItems", .s "center"), ("justifyContent", .s "center"),
            ("gap", .s "240px"), ("padding", .s "160px") ]
          [ .div
              [ ("display", .s "flex"), ("flexDirection", .s "column"),
                ("alignItems", .s "flex-start"), ("gap", .s "48px"),
                ("maxWidth", .s "1400px") ]
              [ .textDiv
                  [ ("fontSize", .s "176px"), ("fontWeight", .n 700),
                    ("color", .s COLORS.text), ("lineHeight", .n 1.1),
                    ("letterSpacing", .s "-0.02em") ]
                  title,
                .textDiv
                  [ ("fontSize", .s "72px"), ("fontWeight", .n 400),
                    ("color", .s COLORS.textSecondary), ("lineHeight", .n 1.4) ]
                  subtitle,
                .div
                  [ ("display", .s "flex"), ("alignItems", .s "center"),
                    ("gap", .s "24px"), ("marginTop", .s "32px") ]
                  [ .div
                      [ ("width", .s "24px"), ("height", .s "24px"),
                        ("borderRadius", .s "50%"), ("backgroundColor", .s COLORS.blue) ]
                      [],
                    .textDiv
                      [ ("fontSize", .s "56px"), ("fontWeight", .n 500),
                        ("color", .s COLORS.cyan) ]
                      (url.replace "https://" "") ] ],
            .div
              [ ("display", .s "flex"), ("flexDirection", .s "column"),
                ("alignItems", .s "center"), ("gap", .s "48px") ]
              [ .div
                  [ ("backgroundColor", .s "#ffffff"), ("padding", .s "64px"),
                    ("borderRadius", .s "48px"), ("display", .s "flex"),
                    ("alignItems", .s "center"), ("justifyContent", .s "center") ]
                  [ .img qrDataUrl qrSize qrSize [("filter", .s "invert(1)")] ],
                .textDiv
                  [ ("fontSize", .s "48px"), ("fontWeight", .n 400),
                    ("color", .s COLORS.textSecondary), ("textAlign", .s "center") ]
                  "Scannez pour rejoindre" ] ] ]
  let element : Element :=
    .div
      [ ("width", .s "100%"), ("height", .s "100%"), ("display", .s "flex"),
        ("flexDirection", .s "column"), ("alignItems", .s "center"),
        ("justifyContent", .s "center"), ("backgroundColor", .s COLORS.bg),
        ("position", .s "relative"), ("overflow", .s "hidden") ]
      children
  satori element WIDTH HEIGHT (satoriFonts fonts)

/-- Row builder for one timed activity (`createActivityRow`). -/
def createActivityRow (activity : Activity) : Element :=
  .div
    [ ("display", .s "flex"), ("alignItems", .s "center"), ("gap", .s "40px"),
      ("paddingTop", .s "24px"), ("paddingBottom", .s "24px"),
      ("borderBottom", .s ("2px solid " ++ COLORS.textSecondary ++ "33")) ]
    [ .textDiv
        [ ("fontSize", .s "56px"), ("fontWeight", .n 700), ("color", .s COLORS.blue),
          ("width", .s "180px"), ("flexShrink", .n 0) ]
        activity.time,
      .div
        [ ("display", .s "flex"), ("flexDirection", .s "column"), ("gap", .s "8px"),
          ("flex", .n 1) ]
        [ .textDiv
            [ ("fontSize", .s "52px"), ("fontWeight", .n 500), ("color", .s COLORS.text) ]
            activity.name,
          .textDiv
            [ ("fontSize", .s "40px"), ("fontWeight", .n 400),
              ("color", .s COLORS.textSecondary) ]
            activity.room ] ]

/-- Item builder for one untimed activity (`createMiscItem`). -/
def createMiscItem (activity : MiscActivity) : Element :=
  .div
    [ ("display", .s "flex"), ("alignItems", .s "center"), ("gap", .s "24px"),
      ("paddingTop", .s "28px"), ("paddingBottom", .s "28px"),
      ("borderBottom", .s ("2px solid " ++ COLORS.textSecondary ++ "33")) ]
    [ .div
        [ ("width", .s "20px"), ("height", .s "20px"), ("borderRadius", .s "50%"),
          ("backgroundColor", .s COLORS.cyan), ("flexShrink", .n 0) ]
        [],
      .div
        [ ("display", .s "flex"), ("flexDirection", .s "column"), ("gap", .s "8px") ]
        [ .textDiv
            [ ("fontSize", .s "52px"), ("fontWeight", .n 500), ("color", .s COLORS.text) ]
            activity.name,
          .textDiv
            [ ("fontSize", .s "40px"), ("fontWeight", .n 400),
              ("color", .s COLORS.textSecondary) ]
            activity.room ] ]

/-- Source `generateActivitiesSlide`. -/
def generateActivitiesSlide (fonts : Fonts) : SvgDoc :=
  let sortedActivities := sortActivitiesByTime SCHEDULED_ACTIVITIES
  let element : Element :=
    .div
      [ ("width", .s "100%"), ("height", .s "100%"), ("display", .s "flex"),
        ("flexDirection", .s "column"), ("backgroundColor", .s COLORS.bg),
        ("position", .s "relative"), ("overflow", .s "hidden") ]
      (generateOrbs ++ [createGrid, createHeader] ++
        [ .div
            [ ("display", .s "flex"), ("flexDirection", .s "column"), ("flex", .n 1),
              ("padding", .s "240px 128px 128px 128px"), ("gap", .s "64px") ]
            [ .textDiv
                [ ("fontSize", .s "120px"), ("fontWeight", .n 700),
                  ("color", .s COLORS.text), ("letterSpacing", .s "-0.02em") ]
                "Programme de la Nuit",
              .div
                [ ("display", .s "flex"), ("flexDirection", .s "row"),
                  ("gap", .s "120px"), ("flex", .n 1) ]
                [ .div
                    [ ("display", .s "flex"), ("flexDirection", .s "column"),
                      ("flex", .n 1) ]
                    ([ .textDiv
                         [ ("fontSize", .s "64px"), ("fontWeight", .n 500),
                           ("color", .s COLORS.textSecondary), ("marginBottom", .s "40px"),
                           ("textTransform", .s "uppercase"),
                           ("letterSpacing", .s "0.05em") ]
                         "Planning" ] ++
                      sortedActivities.map createActivityRow),
                  .div
                    [ ("display", .s "flex"), ("flexDirection", .s "column"),
                      ("flex", .n 1) ]
                    ([ .textDiv
                         [ ("fontSize", .s "64px"), ("fontWeight", .n 500),
                           ("color", .s COLORS.textSecondary), ("marginBottom", .s "40px"),
                           ("textTransform", .s "uppercase"),
                           ("letterSpacing", .s "0.05em") ]
                         "Toute la nuit" ] ++
                      MISC_ACTIVITIES.map createMiscItem) ] ] ])
  satori element WIDTH HEIGHT (satoriFonts fonts)

/-- Source `generateEscapeGameSlide`. -/
def generateEscapeGameSlide (fonts : Fonts) (lockedUpLogoDataUrl : ImageSrc) : SvgDoc :=
  let element : Element :=
    .div
      [ ("width", .s "100%"), ("height", .s "100%"), ("display", .s "flex"),
        ("flexDirection", .s "column"), ("backgroundColor", .s COLORS.bg),
        ("position", .s "relative"), ("overflow", .s "hidden") ]
      (generateOrbs ++ [createGrid, createHeader] ++
        [ .div
            [ ("display", .s "flex"), ("flexDirection", .s "column"),
              ("alignItems", .s "center"), ("justifyContent", .s "center"),
              ("flex", .n 1), ("padding", .s "160px"), ("gap", .s "80px") ]
            [ .img lockedUpLogoDataUrl 1200 400 [("objectFit", .s "contain")],
              .textDiv
                [ ("fontSize", .s "140px"), ("fontWeight", .n 700),
                  ("color", .s COLORS.text), ("textAlign", .s "center"),
                  ("letterSpacing", .s "-0.02em") ]
                "Escape Game",
              .div
                [ ("display", .s "flex"), ("flexDirection", .s "column"),
                  ("alignItems", .s "center"), ("gap", .s "40px"),
                  ("marginTop", .s "40px") ]
                [ .div
                    [ ("display", .s "flex"), ("alignItems", .s "center"),
                      ("gap", .s "32px") ]
                    [ .div
                        [ ("width", .s "32px"), ("height", .s "32px"),
                          ("borderRadius", .s "50%"),
                          ("backgroundColor", .s COLORS.blue) ]
                        [],
                      .textDiv
                        [ ("fontSize", .s "80px"), ("fontWeight", .n 500),
                          ("color", .s COLORS.text) ]
                        "Salle 117" ],
                  .textDiv
                    [ ("fontSize", .s "56px"), ("fontWeight", .n 400),
                      ("color", .s COLORS.textSecondary), ("textAlign", .s "center") ]
                    "Disponible toute la nuit" ] ] ])
  satori element WIDTH HEIGHT (satoriFonts fonts)

/-- Source `generateAssoSlide`. -/
def generateAssoSlide (fonts : Fonts) (logoDataUrl : ImageSrc) : SvgDoc :=
  let qrSize : Nat := 600
  let qrDataUrl : ImageSrc := .svgB64 (generateQRCode ASSO_URL qrSize)
  let element : Element :=
    .div
      [ ("width", .s "100%"), ("height", .s "100%"), ("display", .s "flex"),
        ("flexDirection", .s "column"), ("backgroundColor", .s COLORS.bg),
        ("position", .s "relative"), ("overflow", .s "hidden") ]
      (generateOrbs ++ [createGrid] ++
        [ .div
            [ ("display", .s "flex"), ("flexDirection", .s "column"),
              ("alignItems", .s "center"), ("justifyContent", .s "center"),
              ("flex", .n 1), ("padding", .s "160px"), ("gap", .s "80px") ]
            [ .img logoDataUrl 300 300 [("objectFit", .s "contain")],
              .textDiv
                [ ("fontSize", .s "140px"), ("fontWeight", .n 700),
                  ("color", .s COLORS.text), ("textAlign", .s "center"),
                  ("letterSpacing", .s "-0.02em") ]
                ASSO_NAME,
              .textDiv
                [ ("fontSize", .s "64px"), ("fontWeight", .n 400),
                  ("color", .s COLORS.textSecondary), ("textAlign", .s "center") ]
                "Association des Etudiants en Informatique",
              .div
                [ ("display", .s "flex"), ("flexDirection", .s "column"),
                  ("alignItems", .s "center"), ("gap", .s "40px"),
                  ("marginTop", .s "40px") ]
                [ .div
                    [ ("backgroundColor", .s "#ffffff"), ("padding", .s "48px"),
                      ("borderRadius", .s "40px"), ("display", .s "flex"),
                      ("alignItems", .s "center"), ("justifyContent", .s "center") ]
                    [ .img qrDataUrl qrSize qrSize [("filter", .s "invert(1)")] ],
                  .div
                    [ ("display", .s "flex"), ("alignItems", .s "center"),
                      ("gap", .s "24px") ]
                    [ .div
                        [ ("width", .s "24px"), ("height", .s "24px"),
                          ("borderRadius", .s "50%"),
                          ("backgroundColor", .s COLORS.blue) ]
                        [],
                      .textDiv
                        [ ("fontSize", .s "56px"), ("fontWeight", .n 500),
                          ("color", .s COLORS.cyan) ]
                        "asso.info-evry.fr" ] ] ] ])
  satori element WIDTH HEIGHT (satoriFonts fonts)

/-! ## File-system model and pipeline state

Files are an association list from absolute paths to `Content` (a later
entry for the same path is shadowed, matching overwrite); directories are a
plain membership list (`mkdir -p` semantics).  `St` threads the file system
together with two per-run traces: the font-instancer invocations
(`Bun.spawn` of the python script) and every written path. -/

structure FS where
  files : List (String × Content)
  dirs : List String

def FS.readFile (fs : FS) (p : String) : Option Content :=
  (fs.files.find? (fun e => e.1 == p)).map (fun e => e.2)

def FS.writeFile (fs : FS) (p : String) (c : Content) : FS :=
  { fs with files := (p, c) :: fs.files.filter (fun e => ! (e.1 == p)) }

def FS.removeFile (fs : FS) (p : String) : FS :=
  { fs with files := fs.files.filter (fun e => ! (e.1 == p)) }

def FS.mkdirp (fs : FS) (d : String) : FS :=
  { fs with dirs := d :: fs.dirs }

def FS.hasDir (fs : FS) (d : String) : Bool :=
  fs.dirs.contains d

/-- Name of `p` as a direct child of directory `dir`, when it is one. -/
def childNameOf (dir p : String) : Option String :=
  match (dir ++ "/").data.isPrefixOf? p.data with
  | none => none
  | some rest => if rest = [] ∨ '/' ∈ rest then none else some (String.mk rest)

/-- The directory listing `readdir` returns: each direct-child file name
once. -/
def FS.readdirNames (fs : FS) (d : String) : List String :=
  (fs.files.filterMap (fun e => childNameOf d e.1)).dedup

/-- Modelled `readdir`: fails (`none`) when the directory does not exist. -/
def FS.readdir? (fs : FS) (d : String) : Option (List String) :=
  if fs.hasDir d then some (fs.readdirNames d) else none

/-- Pipeline errors (the thrown exceptions the orchestrator can catch). -/
inductive Err where
  | unreadable (path : String)
  | instanceFailed (weight : Nat)
  | unlinkFailed (path : String)

/-- External behaviour outside the file system: whether the python
font-instancer subprocess exits non-zero for a given source and weight, and
whether `unlink` fails for a given path. -/
structure Env where
  instanceFails : String → Nat → Bool
  unlinkFails : String → Bool

/-- Pipeline state: the file system plus the run's external-call traces. -/
structure St where
  fs : FS
  instCalls : List (String × Nat)
  writes : List String

def St.write (st : St) (p : String) (c : Content) : St :=
  { st with fs := st.fs.writeFile p c, writes := p :: st.writes }

def St.remove (st : St) (p : String) : St :=
  { st with fs := st.fs.removeFile p }

def St.mkdirp (st : St) (d : String) : St :=
  { st with fs := st.fs.mkdirp d }

/-! ## Paths (the `resolve` results, with the repository root at `/repo`) -/

def ROOT_DIR : String := "/repo"

def ASSETS_DIR : String := ROOT_DIR ++ "/assets"

def LOGO_PATH : String := ASSETS_DIR ++ "/AIE.png"

def LOCKEDUP_LOGO_PATH : String := ASSETS_DIR ++ "/lockedup.logo.png"

def CACHE_DIR : String := ROOT_DIR ++ "/.cache"

def OUTPUT_DIR : String := ROOT_DIR ++ "/output"

def SLIDES_DIR : String := OUTPUT_DIR ++ "/slides"

/-- The resolved default font source
`resolve(ROOT_DIR, '../astro-design/src/fonts/Cupertino-Pro-Full.woff2')`. -/
def DEFAULT_FONT_SOURCE : String := "/astro-design/src/fonts/Cupertino-Pro-Full.woff2"

def regularFontPath : String := CACHE_DIR ++ "/Cupertino-OG-400.ttf"

def mediumFontPath : String := CACHE_DIR ++ "/Cupertino-OG-500.ttf"

def boldFontPath : String := CACHE_DIR ++ "/Cupertino-OG-700.ttf"

/-- The configured output document path `resolve(OUTPUT_DIR, 'presentation.pdf')`. -/
def PDF_PATH : String := OUTPUT_DIR ++ "/presentation.pdf"

/-! ## Font derivation and caching -/

/-- Source `createSlideFont`: spawn the python font-instancer (recorded in
the trace), throw on a non-zero exit, otherwise persist the derived static
instance at `outputPath`. -/
def createSlideFont (env : Env) (st : St) (inputPath outputPath : String)
    (weight : Nat) : Option Err × St :=
  let st := { st with instCalls := st.instCalls ++ [(inputPath, weight)] }
  if env.instanceFails inputPath weight then (some (.instanceFailed weight), st)
  else (none, st.write outputPath (.derived inputPath weight))

/-- One `if (!await fontExists(path)) await createSlideFont(...)` step of
`loadFonts` (`fontExists` reads the file and reports success). -/
def ensureFont (env : Env) (st : St) (fontSourcePath path : String)
    (weight : Nat) : Option Err × St :=
  if (st.fs.readFile path).isSome then (none, st)
  else createSlideFont env st fontSourcePath path weight

/-- Source `loadFonts`: ensure the three cached derivatives exist, then read
them back. -/
def loadFonts (env : Env) (st0 : St) (fontSourcePath : String) :
    Except Err Fonts × St :=
  let st := st0.mkdirp CACHE_DIR
  match ensureFont env st fontSourcePath regularFontPath 400 with
  | (some e, st) => (.error e, st)
  | (none, st) =>
    match ensureFont env st fontSourcePath mediumFontPath 500 with
    | (some e, st) => (.error e, st)
    | (none, st) =>
      match ensureFont env st fontSourcePath boldFontPath 700 with
      | (some e, st) => (.error e, st)
      | (none, st) =>
        match st.fs.readFile regularFontPath with
        | none => (.error (.unreadable regularFontPath), st)
        | some regular =>
          match st.fs.readFile mediumFontPath with
          | none => (.error (.unreadable mediumFontPath), st)
          | some medium =>
            match st.fs.readFile boldFontPath with
            | none => (.error (.unreadable boldFontPath), st)
            | some bold => (.ok ⟨regular, medium, bold⟩, st)

/-! ## Slide generation, document assembly, cleanup -/

/-- The fixed slide sequence of `generatePresentation`, in generation
order. -/
def slidesList (fonts : Fonts) (logoDataUrl lockedUpLogoDataUrl : ImageSrc) :
    List (String × SvgDoc) :=
  [ ("01-title", generateTitleSlide fonts logoDataUrl),
    ("02-discord", generateQRSlide fonts "Discord" "Discord de l'evenement a Evry" DISCORD_URL true),
    ("03-nuitdelinfo", generateQRSlide fonts "Nuit de l'Info" "Site officiel - Inscription aux defis avant 21h" NDI_URL true),
    ("04-programme", generateActivitiesSlide fonts),
    ("05-escape-game", generateEscapeGameSlide fonts lockedUpLogoDataUrl),
    ("06-asso", generateAssoSlide fonts logoDataUrl),
    ("07-sujet", generateQRSlide fonts "Sujet de la Nuit" "Telechargez le sujet officiel de l'evenement" SUBJECT_URL true) ]

/-- Raster path of one slide: `resolve(SLIDES_DIR, name + '.png')`. -/
def slidePngPath (name : String) : String :=
  SLIDES_DIR ++ "/" ++ name ++ ".png"

/-- The slide loop body: rasterize each slide and write its PNG. -/
def generateSlides (st : St) : List (String × SvgDoc) → St
  | [] => st
  | (name, svg) :: rest =>
    generateSlides (st.write (slidePngPath name) (svgToPng svg)) rest

/-- The `pngPaths` list accumulated by the slide loop. -/
def slidePaths (slides : List (String × SvgDoc)) : List String :=
  slides.map (fun s => slidePngPath s.1)

/-- The page-building loop of `generatePDF`: read each raster, embed it,
add one fixed-size 1920×1080-point page, and draw the image over the whole
page at the origin; the first unreadable input aborts the loop. -/
def buildPages (fs : FS) : List String → Except Err (List Page)
  | [] => .ok []
  | p :: rest =>
    match fs.readFile p with
    | none => .error (.unreadable p)
    | some c =>
      match buildPages fs rest with
      | .error e => .error e
      | .ok pages => .ok (.mk 1920 1080 [.mk c 0 0 1920 1080] :: pages)

/-- Source `generatePDF`: build every page, then save the document once at
`outputPath`; on any failure nothing is written. -/
def generatePDF (st : St) (pngPaths : List String) (outputPath : String) :
    Option Err × St :=
  match buildPages st.fs pngPaths with
  | .error e => (some e, st)
  | .ok pages => (none, st.write outputPath (.pdf pages))

/-- The `unlink` loop inside `cleanupSlides`' `try`: delete every listed
`.png`; a failing deletion throws, abandoning the rest of the loop. -/
def unlinkLoop (env : Env) (dir : String) : List String → St → Option Err × St
  | [], st => (none, st)
  | f :: rest, st =>
    if strEndsWith f ".png" then
      if env.unlinkFails (dir ++ "/" ++ f) then (some (.unlinkFailed (dir ++ "/" ++ f)), st)
      else unlinkLoop env dir rest (st.remove (dir ++ "/" ++ f))
    else unlinkLoop env dir rest st

/-- Source `cleanupSlides`: list the slides directory and delete the `.png`
files; every error — a missing directory as well as a failed deletion — is
swallowed by the surrounding `catch`. -/
def cleanupSlides (env : Env) (st : St) (slidesDir : String) : St :=
  match st.fs.readdir? slidesDir with
  | none => st
  | some files => (unlinkLoop env slidesDir files st).2

/-! ## The orchestrator -/

/-- Source `generatePresentation`: the linear pipeline with its single
`try/catch`; the returned `Bool` is the success report, the returned `St`
the run's final file system and traces (traces start empty each run). -/
def generatePresentation (env : Env) (fs0 : FS) (verbose : Bool)
    (fontPath : Option String) : Bool × St :=
  let st : St := St.mkdirp ⟨fs0, [], []⟩ SLIDES_DIR
  let fontSourcePath := fontPath.getD DEFAULT_FONT_SOURCE
  match st.fs.readFile fontSourcePath with
  | none => (false, st)
  | some _ =>
    match loadFonts env st fontSourcePath with
    | (.error _, st) => (false, st)
    | (.ok fonts, st) =>
      match st.fs.readFile LOGO_PATH with
      | none => (false, st)
      | some logoContent =>
        match st.fs.readFile LOCKEDUP_LOGO_PATH with
        | none => (false, st)
        | some lockedUpContent =>
          let logoDataUrl : ImageSrc := .pngB64 logoContent
          let lockedUpLogoDataUrl : ImageSrc := .pngB64 lockedUpContent
          let slides := slidesList fonts logoDataUrl lockedUpLogoDataUrl
          let st := generateSlides st slides
          let pngPaths := slidePaths slides
          match generatePDF st pngPaths PDF_PATH with
          | (some _, st) => (false, st)
          | (none, st) => (true, cleanupSlides env st SLIDES_DIR)

/-! ## Order facts about the comparator -/

theorem lexLt_cons_iff (x y : Char) (xs ys : List Char) :
    lexLt (x :: xs) (y :: ys) = true ↔
      (x.toNat < y.toNat ∨ (x.toNat = y.toNat ∧ lexLt xs ys = true)) := by
  simp only [lexLt]
  split_ifs with h1 h2
  · simp [h1]
  · constructor
    · intro h
      exact absurd h (by simp)
    · rintro (h | ⟨h, -⟩) <;> omega
  · constructor
    · intro h
      exact Or.inr ⟨by omega, h⟩
    · rintro (h | ⟨-, h⟩)
      · omega
      · exact h

theorem lexLt_asymm : ∀ a b : List Char, lexLt a b = true → lexLt b a = false
  | [], [] => by simp [lexLt]
  | [], _ :: _ => by simp [lexLt]
  | _ :: _, [] => by simp [lexLt]
  | x :: xs, y :: ys => by
    intro h
    rw [lexLt_cons_iff] at h
    by_cases h2 : lexLt (y :: ys) (x :: xs) = true
    · rw [lexLt_cons_iff] at h2
      rcases h with h | ⟨he, h⟩ <;> rcases h2 with h2 | ⟨he2, h2⟩
      · omega
      · omega
      · omega
      · rw [lexLt_asymm xs ys h] at h2
        exact absurd h2 (by simp)
    · simpa using h2

theorem lexLt_trans :
    ∀ a b c : List Char, lexLt a b = true → lexLt b c = true → lexLt a c = true
  | [], [], [] => by intro ha _; simpa [lexLt] using ha
  | [], [], _ :: _ => by intro _ _; simp [lexLt]
  | [], _ :: _, [] => by intro _ hb; simpa [lexLt] using hb
  | [], _ :: _, _ :: _ => by intro _ _; simp [lexLt]
  | _ :: _, [], _ => by intro ha _; simpa [lexLt] using ha
  | _ :: _, _ :: _, [] => by intro _ hb; simpa [lexLt] using hb
  | x :: xs, y :: ys, z :: zs => by
    intro ha hb
    rw [lexLt_cons_iff] at ha hb ⊢
    rcases ha with h1 | ⟨h1, ha⟩ <;> rcases hb with h2 | ⟨h2, hb⟩
    · exact Or.inl (by omega)
    · exact Or.inl (by omega)
    · exact Or.inl (by omega)
    · exact Or.inr ⟨by omega, lexLt_trans xs ys zs ha hb⟩

theorem lexLt_eq_of_false :
    ∀ a b : List Char, lexLt a b = false → lexLt b a = false → a = b
  | [], [] => by intro _ _; rfl
  | [], _ :: _ => by intro ha _; simpa [lexLt] using ha
  | _ :: _, [] => by intro _ hb; simpa [lexLt] using hb
  | x :: xs, y :: ys => by
    intro ha hb
    have ha' : ¬ (x.toNat < y.toNat ∨ (x.toNat = y.toNat ∧ lexLt xs ys = true)) := by
      rw [← lexLt_cons_iff]
      simp [ha]
    have hb' : ¬ (y.toNat < x.toNat ∨ (y.toNat = x.toNat ∧ lexLt ys xs = true)) := by
      rw [← lexLt_cons_iff]
      simp [hb]
    push_neg at ha' hb'
    have hxy : x.toNat = y.toNat := by omega
    have h1 : lexLt xs ys = false := by
      simpa using ha'.2 hxy
    have h2 : lexLt ys xs = false := by
      simpa using hb'.2 hxy.symm
    rw [Char.ext (UInt32.ext hxy), lexLt_eq_of_false xs ys h1 h2]

/-- The comparator is non-positive exactly when the remapped hour key of
`a` is smaller, or the keys are equal and `a.time` is lexicographically no
greater than `b.time`. -/
theorem actLE_iff (a b : Activity) :
    ActLE a b ↔
      (timeSortKey a.time < timeSortKey b.time ∨
        (timeSortKey a.time = timeSortKey b.time ∧
          lexLt b.time.data a.time.data = false)) := by
  have hA : ActLE a b ↔
      (if timeSortKey a.time - timeSortKey b.time = 0
        then (if lexLt a.time.data b.time.data then (-1 : Int)
          else if lexLt b.time.data a.time.data then 1 else 0)
        else timeSortKey a.time - timeSortKey b.time) ≤ 0 := Iff.rfl
  rw [hA]
  split_ifs with h1 h2 h3
  · exact iff_of_true (by omega) (Or.inr ⟨by omega, lexLt_asymm _ _ h2⟩)
  · refine iff_of_false (by omega) ?_
    rintro (h | ⟨-, h⟩)
    · omega
    · rw [h3] at h
      exact absurd h (by simp)
  · exact iff_of_true (by omega) (Or.inr ⟨by omega, by simpa using h3⟩)
  · constructor
    · intro h
      exact Or.inl (by omega)
    · rintro (h | ⟨h, -⟩) <;> omega

instance : IsTotal Activity ActLE :=
  ⟨fun a b => by
    rw [actLE_iff, actLE_iff]
    by_cases hk1 : timeSortKey a.time < timeSortKey b.time
    · exact Or.inl (Or.inl hk1)
    by_cases hk2 : timeSortKey b.time < timeSortKey a.time
    · exact Or.inr (Or.inl hk2)
    by_cases hl : lexLt a.time.data b.time.data = true
    · exact Or.inl (Or.inr ⟨by omega, lexLt_asymm _ _ hl⟩)
    · exact Or.inr (Or.inr ⟨by omega, by simpa using hl⟩)⟩

instance : IsTrans Activity ActLE :=
  ⟨fun a b c hab hbc => by
    rw [actLE_iff] at hab hbc ⊢
    rcases hab with h1 | ⟨h1, hba⟩ <;> rcases hbc with h2 | ⟨h2, hcb⟩
    · exact Or.inl (by omega)
    · exact Or.inl (by omega)
    · exact Or.inl (by omega)
    · refine Or.inr ⟨by omega, ?_⟩
      by_cases hca : lexLt c.time.data a.time.data = true
      · by_cases hbc2 : lexLt b.time.data c.time.data = true
        · rw [lexLt_trans _ _ _ hbc2 hca] at hba
          exact absurd hba (by simp)
        · have hby : b.time.data = c.time.data :=
            lexLt_eq_of_false _ _ (by simpa using hbc2) hcb
          rw [← hby, hba] at hca
          exact absurd hca (by simp)
      · simpa using hca⟩

/-- A time string of the shape `"HH:MM"` (two decimal digits, a colon, two
decimal digits). -/
def isHHMM (s : String) : Bool :=
  match s.data with
  | [h1, h2, c, m1, m2] => h1.isDigit && h2.isDigit && c == ':' && m1.isDigit && m2.isDigit
  | _ => false

/-- C1: for every list of activities whose time strings have the form
`"HH:MM"`, `sortActivitiesByTime` returns a permutation of its input that
is ordered by the remapped hour key (`hour + 24` when `hour < 12`, else
`hour`), breaking key ties by lexicographic comparison of the original time
strings; in particular `[23:00, 00:00, 08:00]` sorts to exactly that
order. -/
theorem sortActivitiesByTime_orders_by_overnight_key (l : List Activity)
    (h : ∀ a ∈ l, isHHMM a.time = true) :
    (sortActivitiesByTime l).Perm l ∧
    (sortActivitiesByTime l).Sorted (fun a b =>
      timeSortKey a.time < timeSortKey b.time ∨
      (timeSortKey a.time = timeSortKey b.time ∧
        lexLt b.time.data a.time.data = false)) ∧
    sortActivitiesByTime
        [⟨"", "", "23:00"⟩, ⟨"", "", "00:00"⟩, ⟨"", "", "08:00"⟩] =
      [⟨"", "", "23:00"⟩, ⟨"", "", "00:00"⟩, ⟨"", "", "08:00"⟩] :=
  ⟨List.perm_insertionSort ActLE l,
    List.Pairwise.imp (fun hab => (actLE_iff _ _).mp hab)
      (List.sorted_insertionSort ActLE l),
    by decide⟩

/-- Witness for C1 at the concrete example input from the claim. -/
theorem sortActivitiesByTime_orders_by_overnight_key_witness :
    (∀ a ∈ ([⟨"", "", "23:00"⟩, ⟨"", "", "00:00"⟩, ⟨"", "", "08:00"⟩] : List Activity),
        isHHMM a.time = true) ∧
    ((sortActivitiesByTime
          [⟨"", "", "23:00"⟩, ⟨"", "", "00:00"⟩, ⟨"", "", "08:00"⟩]).Perm
        [⟨"", "", "23:00"⟩, ⟨"", "", "00:00"⟩, ⟨"", "", "08:00"⟩] ∧
      (sortActivitiesByTime
          [⟨"", "", "23:00"⟩, ⟨"", "", "00:00"⟩, ⟨"", "", "08:00"⟩]).Sorted (fun a b =>
        timeSortKey a.time < timeSortKey b.time ∨
        (timeSortKey a.time = timeSortKey b.time ∧
          lexLt b.time.data a.time.data = false)) ∧
      sortActivitiesByTime
          [⟨"", "", "23:00"⟩, ⟨"", "", "00:00"⟩, ⟨"", "", "08:00"⟩] =
        [⟨"", "", "23:00"⟩, ⟨"", "", "00:00"⟩, ⟨"", "", "08:00"⟩]) :=
  ⟨by decide, sortActivitiesByTime_orders_by_overnight_key _ (by decide)⟩

/-- C4: the slide layout builders and the QR encoder are pure functions of
their arguments in this embedding — no hidden state, randomness or I/O
enters any of them — so two invocations of the same builder on a fixed
`Fonts` record and fixed input data produce identical layout documents, and
two `generateQRCode` invocations on a fixed `(url, size)` produce identical
encoder output. -/
theorem builders_and_qr_encoder_deterministic :
    (∀ (fonts : Fonts) (logo : ImageSrc),
      generateTitleSlide fonts logo = generateTitleSlide fonts logo) ∧
    (∀ (fonts : Fonts) (title subtitle url : String) (showHeader : Bool),
      generateQRSlide fonts title subtitle url showHeader =
        generateQRSlide fonts title subtitle url showHeader) ∧
    (∀ fonts : Fonts, generateActivitiesSlide fonts = generateActivitiesSlide fonts) ∧
    (∀ (fonts : Fonts) (lockedUpLogo : ImageSrc),
      generateEscapeGameSlide fonts lockedUpLogo =
        generateEscapeGameSlide fonts lockedUpLogo) ∧
    (∀ (fonts : Fonts) (logo : ImageSrc),
      generateAssoSlide fonts logo = generateAssoSlide fonts logo) ∧
    (∀ (url : String) (size : Nat), generateQRCode url size = generateQRCode url size) :=
  ⟨fun _ _ => rfl, fun _ _ _ _ _ => rfl, fun _ => rfl, fun _ _ => rfl,
    fun _ _ => rfl, fun _ _ => rfl⟩

/-! ## Document assembly (`generatePDF`) -/

/-- The page built for one raster: the fixed 1920×1080-point page with the
image drawn full-bleed at the origin. -/
def fullBleedPage (c : Content) : Page :=
  .mk 1920 1080 [.mk c 0 0 1920 1080]

theorem buildPages_ok (fs : FS) :
    ∀ (paths : List String) (cs : List Content),
      List.Forall₂ (fun p c => fs.readFile p = some c) paths cs →
      buildPages fs paths = .ok (cs.map fullBleedPage)
  | [], [], _ => rfl
  | p :: paths, c :: cs, h => by
    rcases h with _ | ⟨hpc, hrest⟩
    simp only [buildPages, hpc, buildPages_ok fs paths cs hrest, List.map]
    rfl

/-- C3: when every input path is readable, `generatePDF` succeeds and
writes, at the output path, a document with exactly one page per input
image, in input order; every page has the fixed 1920×1080 point dimensions
regardless of the source raster, and each page draws its image once at
origin (0,0) with the page's full width and height. -/
theorem generatePDF_one_full_bleed_page_per_input (st : St)
    (paths : List String) (out : String) (cs : List Content)
    (h : List.Forall₂ (fun p c => st.fs.readFile p = some c) paths cs) :
    generatePDF st paths out = (none, st.write out (.pdf (cs.map fullBleedPage))) ∧
    (cs.map fullBleedPage).length = paths.length ∧
    ∀ page ∈ cs.map fullBleedPage, ∃ c ∈ cs, page = .mk 1920 1080 [.mk c 0 0 1920 1080] := by
  refine ⟨?_, ?_, ?_⟩
  · simp only [generatePDF, buildPages_ok st.fs paths cs h]
  · simp [h.length_eq]
  · intro page hp
    rcases List.mem_map.mp hp with ⟨c, hc, rfl⟩
    exact ⟨c, hc, rfl⟩

/-- Witness for C3: a one-raster assembly evaluated concretely. -/
theorem generatePDF_one_full_bleed_page_per_input_witness :
    List.Forall₂
      (fun p c => (FS.mk [("/repo/output/slides/a.png", Content.bytes "raster")] []).readFile p = some c)
      ["/repo/output/slides/a.png"] [Content.bytes "raster"] ∧
    generatePDF ⟨⟨[("/repo/output/slides/a.png", Content.bytes "raster")], []⟩, [], []⟩
        ["/repo/output/slides/a.png"] PDF_PATH =
      (none, St.write ⟨⟨[("/repo/output/slides/a.png", Content.bytes "raster")], []⟩, [], []⟩
        PDF_PATH (.pdf ([Content.bytes "raster"].map fullBleedPage))) :=
  ⟨List.Forall₂.cons rfl List.Forall₂.nil,
    (generatePDF_one_full_bleed_page_per_input
      ⟨⟨[("/repo/output/slides/a.png", Content.bytes "raster")], []⟩, [], []⟩
      ["/repo/output/slides/a.png"] PDF_PATH [Content.bytes "raster"]
      (List.Forall₂.cons rfl List.Forall₂.nil)).1⟩

theorem buildPages_err (fs : FS) :
    ∀ (paths : List String) (p : String), p ∈ paths → fs.readFile p = none →
      ∃ e, buildPages fs paths = .error e := by
  intro paths
  induction paths with
  | nil => intro p hp; exact absurd hp (List.not_mem_nil p)
  | cons q rest ih =>
    intro p hp hnone
    rcases List.mem_cons.mp hp with rfl | hp'
    · exact ⟨.unreadable p, by simp [buildPages, hnone]⟩
    · match hq : fs.readFile q with
      | none => exact ⟨.unreadable q, by simp [buildPages, hq]⟩
      | some c =>
        rcases ih p hp' hnone with ⟨e, he⟩
        exact ⟨e, by simp [buildPages, hq, he]⟩

/-- C5: if any input path is unreadable, `generatePDF` fails as a whole and
leaves the state untouched — in particular nothing is written to the output
path, so no partial document with the preceding pages is persisted. -/
theorem generatePDF_unreadable_input_fails_without_write (st : St)
    (paths : List String) (out : String) (p : String)
    (hp : p ∈ paths) (hnone : st.fs.readFile p = none) :
    ∃ e, generatePDF st paths out = (some e, st) := by
  rcases buildPages_err st.fs paths p hp hnone with ⟨e, he⟩
  exact ⟨e, by simp [generatePDF, he]⟩

/-- Witness for C5: a concrete assembly with one readable and one missing
raster fails and writes nothing. -/
theorem generatePDF_unreadable_input_fails_without_write_witness :
    "/repo/output/slides/missing.png" ∈
        ["/repo/output/slides/a.png", "/repo/output/slides/missing.png"] ∧
    (FS.mk [("/repo/output/slides/a.png", Content.bytes "raster")] []).readFile
        "/repo/output/slides/missing.png" = none ∧
    ∃ e, generatePDF ⟨⟨[("/repo/output/slides/a.png", Content.bytes "raster")], []⟩, [], []⟩
        ["/repo/output/slides/a.png", "/repo/output/slides/missing.png"] PDF_PATH =
      (some e, ⟨⟨[("/repo/output/slides/a.png", Content.bytes "raster")], []⟩, [], []⟩) :=
  ⟨by decide, rfl,
    generatePDF_unreadable_input_fails_without_write
      ⟨⟨[("/repo/output/slides/a.png", Content.bytes "raster")], []⟩, [], []⟩
      ["/repo/output/slides/a.png", "/repo/output/slides/missing.png"] PDF_PATH
      "/repo/output/slides/missing.png" (by decide) rfl⟩

/-! ## File-system lemmas -/

theorem find?_filter_ne (l : List (String × Content)) (p q : String) (h : q ≠ p) :
    List.find? (fun e => e.1 == q) (l.filter (fun e => ! (e.1 == p))) =
      List.find? (fun e => e.1 == q) l := by
  induction l with
  | nil => rfl
  | cons e rest ih =>
    rw [List.filter_cons, List.find?_cons]
    by_cases hp : (e.1 == p) = true
    · have hq : (e.1 == q) = false := by
        rw [eq_of_beq hp]
        exact Bool.eq_false_iff.mpr (fun htrue => h (eq_of_beq htrue).symm)
      rw [hp, hq]
      simpa using ih
    · have hp' : (e.1 == p) = false := Bool.eq_false_iff.mpr hp
      rw [hp']
      simp only [Bool.not_false, if_true, List.find?_cons]
      cases hq : (e.1 == q) with
      | true => rfl
      | false => exact ih

theorem FS.readFile_writeFile_same (fs : FS) (p : String) (c : Content) :
    (fs.writeFile p c).readFile p = some c := by
  simp [FS.readFile, FS.writeFile]

theorem FS.readFile_writeFile_ne (fs : FS) (p : String) (c : Content) (q : String)
    (h : q ≠ p) : (fs.writeFile p c).readFile q = fs.readFile q := by
  have hpq : ((p, c).1 == q) = false :=
    Bool.eq_false_iff.mpr (fun htrue => h (eq_of_beq htrue).symm)
  simp only [FS.readFile, FS.writeFile, List.find?_cons, hpq]
  rw [find?_filter_ne _ _ _ h]

theorem FS.readFile_removeFile_ne (fs : FS) (p : String) (q : String)
    (h : q ≠ p) : (fs.removeFile p).readFile q = fs.readFile q := by
  simp only [FS.readFile, FS.removeFile]
  rw [find?_filter_ne _ _ _ h]

theorem FS.readFile_removeFile_same (fs : FS) (p : String) :
    (fs.removeFile p).readFile p = none := by
  have hnone : List.find? (fun e => e.1 == p)
      (fs.files.filter (fun e => ! (e.1 == p))) = none := by
    rw [List.find?_eq_none]
    intro e he
    simpa using List.of_mem_filter he
  simp only [FS.readFile, FS.removeFile, hnone, Option.map_none']

/-- C6: when the font source path (explicit override, else the fixed
default) is not readable, `generatePresentation` reports failure, leaves
every file — in particular the output document path — untouched, invokes
the font instancer zero times, and writes nothing (so no slide raster is
generated). -/
theorem generatePresentation_font_unreadable_halts (env : Env) (fs : FS)
    (verbose : Bool) (fontPath : Option String)
    (h : fs.readFile (fontPath.getD DEFAULT_FONT_SOURCE) = none) :
    (generatePresentation env fs verbose fontPath).1 = false ∧
    (generatePresentation env fs verbose fontPath).2.fs.files = fs.files ∧
    (generatePresentation env fs verbose fontPath).2.instCalls = [] ∧
    (generatePresentation env fs verbose fontPath).2.writes = [] := by
  have hread : FS.readFile { files := fs.files, dirs := SLIDES_DIR :: fs.dirs }
      (fontPath.getD DEFAULT_FONT_SOURCE) = none := h
  simp [generatePresentation, St.mkdirp, FS.mkdirp, hread]

/-- Witness for C6: the empty file system with no font override. -/
theorem generatePresentation_font_unreadable_halts_witness :
    (FS.mk [] []).readFile ((none : Option String).getD DEFAULT_FONT_SOURCE) = none ∧
    ((generatePresentation ⟨fun _ _ => false, fun _ => false⟩ ⟨[], []⟩ false none).1 = false ∧
      (generatePresentation ⟨fun _ _ => false, fun _ => false⟩ ⟨[], []⟩ false none).2.fs.files = (FS.mk [] []).files ∧
      (generatePresentation ⟨fun _ _ => false, fun _ => false⟩ ⟨[], []⟩ false none).2.instCalls = [] ∧
      (generatePresentation ⟨fun _ _ => false, fun _ => false⟩ ⟨[], []⟩ false none).2.writes = []) :=
  ⟨rfl, generatePresentation_font_unreadable_halts ⟨fun _ _ => false, fun _ => false⟩
    ⟨[], []⟩ false none rfl⟩

/-! ## Font-cache lemmas -/

theorem ensureFont_hit (env : Env) (st : St) (src path : String) (weight : Nat)
    (h : (st.fs.readFile path).isSome = true) :
    ensureFont env st src path weight = (none, st) := by
  unfold ensureFont
  rw [if_pos h]

theorem ensureFont_calls (env : Env) (st : St) (src path : String) (weight : Nat) :
    ∀ e ∈ (ensureFont env st src path weight).2.instCalls,
      e ∈ st.instCalls ∨ (e = (src, weight) ∧ st.fs.readFile path = none) := by
  intro e he
  unfold ensureFont createSlideFont at he
  split_ifs at he with h1 h2
  · exact Or.inl he
  · simp only at he
    rcases List.mem_append.mp he with h | h
    · exact Or.inl h
    · simp only [List.mem_singleton] at h
      exact Or.inr ⟨h, Option.not_isSome_iff_eq_none.mp (by simp [h1])⟩
  · simp only [St.write] at he
    rcases List.mem_append.mp he with h | h
    · exact Or.inl h
    · simp only [List.mem_singleton] at h
      exact Or.inr ⟨h, Option.not_isSome_iff_eq_none.mp (by simp [h1])⟩

theorem ensureFont_readFile_ne (env : Env) (st : St) (src path : String)
    (weight : Nat) (q : String) (hq : q ≠ path) :
    (ensureFont env st src path weight).2.fs.readFile q = st.fs.readFile q := by
  unfold ensureFont createSlideFont
  split_ifs with h1 h2
  · rfl
  · rfl
  · exact FS.readFile_writeFile_ne _ _ _ _ hq

theorem ensureFont_dirs (env : Env) (st : St) (src path : String) (weight : Nat) :
    (ensureFont env st src path weight).2.fs.dirs = st.fs.dirs := by
  unfold ensureFont createSlideFont
  split_ifs <;> rfl

theorem ensureFont_writes (env : Env) (st : St) (src path : String) (weight : Nat) :
    (ensureFont env st src path weight).2.writes = st.writes ∨
    (ensureFont env st src path weight).2.writes = path :: st.writes := by
  unfold ensureFont createSlideFont
  split_ifs
  · exact Or.inl rfl
  · exact Or.inl rfl
  · exact Or.inr rfl

theorem loadFonts_ok_reads (env : Env) (st : St) (src : String) (fonts : Fonts)
    (st' : St) (h : loadFonts env st src = (.ok fonts, st')) :
    st'.fs.readFile regularFontPath = some fonts.regular ∧
    st'.fs.readFile mediumFontPath = some fonts.medium ∧
    st'.fs.readFile boldFontPath = some fonts.bold := by
  simp only [loadFonts] at h
  rcases hE1 : ensureFont env (st.mkdirp CACHE_DIR) src regularFontPath 400 with ⟨oe1, st1⟩
  rw [hE1] at h
  cases oe1 with
  | some e => dsimp only at h; exact absurd h (by simp)
  | none =>
    dsimp only at h
    rcases hE2 : ensureFont env st1 src mediumFontPath 500 with ⟨oe2, st2⟩
    rw [hE2] at h
    cases oe2 with
    | some e => dsimp only at h; exact absurd h (by simp)
    | none =>
      dsimp only at h
      rcases hE3 : ensureFont env st2 src boldFontPath 700 with ⟨oe3, st3⟩
      rw [hE3] at h
      cases oe3 with
      | some e => dsimp only at h; exact absurd h (by simp)
      | none =>
        dsimp only at h
        rcases hr : st3.fs.readFile regularFontPath with - | r <;> rw [hr] at h
        · exact absurd h (by simp)
        rcases hm : st3.fs.readFile mediumFontPath with - | m <;> rw [hm] at h
        · exact absurd h (by simp)
        rcases hb : st3.fs.readFile boldFontPath with - | b <;> rw [hb] at h
        · exact absurd h (by simp)
        simp only [Prod.mk.injEq, Except.ok.injEq] at h
        obtain ⟨rfl, rfl⟩ := h
        exact ⟨hr, hm, hb⟩

theorem ensureFont_readFile_pres (env : Env) (st : St) (src path : String)
    (weight : Nat) (q : String) (c : Content) (h : st.fs.readFile q = some c) :
    (ensureFont env st src path weight).2.fs.readFile q = some c := by
  by_cases hq : q = path
  · subst hq
    rw [ensureFont_hit env st src q weight (by simp [h])]
    exact h
  · rw [ensureFont_readFile_ne env st src path weight q hq]
    exact h

theorem loadFonts_readFile_pres (env : Env) (st : St) (src : String) (q : String)
    (c : Content) (h : st.fs.readFile q = some c) :
    (loadFonts env st src).2.fs.readFile q = some c := by
  simp only [loadFonts]
  rcases hE1 : ensureFont env (st.mkdirp CACHE_DIR) src regularFontPath 400 with ⟨oe1, st1⟩
  have e1 : (ensureFont env (st.mkdirp CACHE_DIR) src regularFontPath 400).2 = st1 := by
    rw [hE1]
  have p1 : st1.fs.readFile q = some c :=
    e1 ▸ ensureFont_readFile_pres env (st.mkdirp CACHE_DIR) src _ _ q c h
  cases oe1 with
  | some e => exact p1
  | none =>
    dsimp only
    rcases hE2 : ensureFont env st1 src mediumFontPath 500 with ⟨oe2, st2⟩
    have e2 : (ensureFont env st1 src mediumFontPath 500).2 = st2 := by rw [hE2]
    have p2 : st2.fs.readFile q = some c :=
      e2 ▸ ensureFont_readFile_pres env st1 src _ _ q c p1
    cases oe2 with
    | some e => exact p2
    | none =>
      dsimp only
      rcases hE3 : ensureFont env st2 src boldFontPath 700 with ⟨oe3, st3⟩
      have e3 : (ensureFont env st2 src boldFontPath 700).2 = st3 := by rw [hE3]
      have p3 : st3.fs.readFile q = some c :=
        e3 ▸ ensureFont_readFile_pres env st2 src _ _ q c p2
      cases oe3 with
      | some e => exact p3
      | none =>
        dsimp only
        rcases hr : st3.fs.readFile regularFontPath with - | r
        · exact p3
        rcases hm : st3.fs.readFile mediumFontPath with - | m
        · exact p3
        rcases hb : st3.fs.readFile boldFontPath with - | b
        · exact p3
        exact p3

theorem loadFonts_calls (env : Env) (st : St) (src : String) :
    ∀ e ∈ (loadFonts env st src).2.instCalls,
      e ∈ st.instCalls ∨
      (e.2 = 400 ∧ st.fs.readFile regularFontPath = none) ∨
      (e.2 = 500 ∧ st.fs.readFile mediumFontPath = none) ∨
      (e.2 = 700 ∧ st.fs.readFile boldFontPath = none) := by
  intro e he
  simp only [loadFonts] at he
  rcases hE1 : ensureFont env (st.mkdirp CACHE_DIR) src regularFontPath 400 with ⟨oe1, st1⟩
  have e1 : (ensureFont env (st.mkdirp CACHE_DIR) src regularFontPath 400).2 = st1 := by
    rw [hE1]
  have pull1 : ∀ q c, st.fs.readFile q = some c → st1.fs.readFile q = some c :=
    fun q c hv => e1 ▸ ensureFont_readFile_pres env (st.mkdirp CACHE_DIR) src _ _ q c hv
  have none1 : ∀ q, st1.fs.readFile q = none → st.fs.readFile q = none := by
    intro q hq
    rcases hv : st.fs.readFile q with - | c
    · rfl
    · rw [pull1 q c hv] at hq
      exact absurd hq (by simp)
  have calls1 : ∀ e' ∈ st1.instCalls,
      e' ∈ st.instCalls ∨ (e'.2 = 400 ∧ st.fs.readFile regularFontPath = none) := by
    intro e' he'
    rcases ensureFont_calls env (st.mkdirp CACHE_DIR) src regularFontPath 400 e'
        (e1 ▸ he') with h | ⟨heq, hnone⟩
    · exact Or.inl h
    · exact Or.inr ⟨by rw [heq], hnone⟩
  rw [hE1] at he
  cases oe1 with
  | some e1' =>
    rcases calls1 e he with h | h
    · exact Or.inl h
    · exact Or.inr (Or.inl h)
  | none =>
    dsimp only at he
    rcases hE2 : ensureFont env st1 src mediumFontPath 500 with ⟨oe2, st2⟩
    have e2 : (ensureFont env st1 src mediumFontPath 500).2 = st2 := by rw [hE2]
    have pull2 : ∀ q c, st1.fs.readFile q = some c → st2.fs.readFile q = some c :=
      fun q c hv => e2 ▸ ensureFont_readFile_pres env st1 src _ _ q c hv
    have none2 : ∀ q, st2.fs.readFile q = none → st1.fs.readFile q = none := by
      intro q hq
      rcases hv : st1.fs.readFile q with - | c
      · rfl
      · rw [pull2 q c hv] at hq
        exact absurd hq (by simp)
    have calls2 : ∀ e' ∈ st2.instCalls,
        e' ∈ st.instCalls ∨
        (e'.2 = 400 ∧ st.fs.readFile regularFontPath = none) ∨
        (e'.2 = 500 ∧ st.fs.readFile mediumFontPath = none) := by
      intro e' he'
      rcases ensureFont_calls env st1 src mediumFontPath 500 e'
          (e2 ▸ he') with h | ⟨heq, hnone⟩
      · rcases calls1 e' h with h' | h'
        · exact Or.inl h'
        · exact Or.inr (Or.inl h')
      · exact Or.inr (Or.inr ⟨by rw [heq], none1 _ hnone⟩)
    rw [hE2] at he
    cases oe2 with
    | some e2' =>
      rcases calls2 e he with h | h | h
      · exact Or.inl h
      · exact Or.inr (Or.inl h)
      · exact Or.inr (Or.inr (Or.inl h))
    | none =>
      dsimp only at he
      rcases hE3 : ensureFont env st2 src boldFontPath 700 with ⟨oe3, st3⟩
      have e3 : (ensureFont env st2 src boldFontPath 700).2 = st3 := by rw [hE3]
      have calls3 : ∀ e' ∈ st3.instCalls,
          e' ∈ st.instCalls ∨
          (e'.2 = 400 ∧ st.fs.readFile regularFontPath = none) ∨
          (e'.2 = 500 ∧ st.fs.readFile mediumFontPath = none) ∨
          (e'.2 = 700 ∧ st.fs.readFile boldFontPath = none) := by
        intro e' he'
        rcases ensureFont_calls env st2 src boldFontPath 700 e'
            (e3 ▸ he') with h | ⟨heq, hnone⟩
        · rcases calls2 e' h with h' | h' | h'
          · exact Or.inl h'
          · exact Or.inr (Or.inl h')
          · exact Or.inr (Or.inr (Or.inl h'))
        · exact Or.inr (Or.inr (Or.inr ⟨by rw [heq], none1 _ (none2 _ hnone)⟩))
      rw [hE3] at he
      cases oe3 with
      | some e3' => exact calls3 e he
      | none =>
        dsimp only at he
        rcases hr : st3.fs.readFile regularFontPath with - | r <;> rw [hr] at he
        · exact calls3 e he
        rcases hm : st3.fs.readFile mediumFontPath with - | m <;> rw [hm] at he
        · exact calls3 e he
        rcases hb : st3.fs.readFile boldFontPath with - | b <;> rw [hb] at he
        · exact calls3 e he
        exact calls3 e he

/-- The three derived font weights. -/
inductive FontWeight where
  | regular
  | medium
  | bold

def FontWeight.num : FontWeight → Nat
  | .regular => 400
  | .medium => 500
  | .bold => 700

def FontWeight.cachePath : FontWeight → String
  | .regular => regularFontPath
  | .medium => mediumFontPath
  | .bold => boldFontPath

def Fonts.weight : Fonts → FontWeight → Content
  | f, .regular => f.regular
  | f, .medium => f.medium
  | f, .bold => f.bold

/-- C7: for each of the three font weights, when the cached derivative file
for that weight already exists at the start of the run, `loadFonts` never
invokes the external font-instancing step for that weight (its trace has no
call at that weight's number), and on success it returns the cached bytes
for that weight unchanged. -/
theorem loadFonts_cached_weight_not_rederived (env : Env) (st : St) (src : String)
    (w : FontWeight) (c : Content) (hc : st.fs.readFile w.cachePath = some c) :
    (∀ e ∈ (loadFonts env st src).2.instCalls, e ∈ st.instCalls ∨ e.2 ≠ w.num) ∧
    ∀ fonts st', loadFonts env st src = (.ok fonts, st') → fonts.weight w = c := by
  constructor
  · intro e he
    rcases loadFonts_calls env st src e he with h | ⟨hn, hnone⟩ | ⟨hn, hnone⟩ | ⟨hn, hnone⟩
    · exact Or.inl h
    · refine Or.inr (fun heq => ?_)
      rw [hn] at heq
      cases w
      · simp only [FontWeight.cachePath] at hc
        rw [hnone] at hc
        exact absurd hc (by simp)
      · exact absurd heq (by decide)
      · exact absurd heq (by decide)
    · refine Or.inr (fun heq => ?_)
      rw [hn] at heq
      cases w
      · exact absurd heq (by decide)
      · simp only [FontWeight.cachePath] at hc
        rw [hnone] at hc
        exact absurd hc (by simp)
      · exact absurd heq (by decide)
    · refine Or.inr (fun heq => ?_)
      rw [hn] at heq
      cases w
      · exact absurd heq (by decide)
      · exact absurd heq (by decide)
      · simp only [FontWeight.cachePath] at hc
        rw [hnone] at hc
        exact absurd hc (by simp)
  · intro fonts st' h
    have hreads := loadFonts_ok_reads env st src fonts st' h
    have hpres : (loadFonts env st src).2.fs.readFile w.cachePath = some c :=
      loadFonts_readFile_pres env st src _ c hc
    rw [h] at hpres
    dsimp only at hpres
    cases w
    · simp only [FontWeight.cachePath] at hpres
      rw [hreads.1] at hpres
      simpa [Fonts.weight] using hpres
    · simp only [FontWeight.cachePath] at hpres
      rw [hreads.2.1] at hpres
      simpa [Fonts.weight] using hpres
    · simp only [FontWeight.cachePath] at hpres
      rw [hreads.2.2] at hpres
      simpa [Fonts.weight] using hpres

/-- Witness for C7: a state whose 400-weight derivative is already cached;
the run instances only the two missing weights and returns the cached
regular bytes. -/
theorem loadFonts_cached_weight_not_rederived_witness :
    (St.mk ⟨[(regularFontPath, Content.bytes "cached400")], []⟩ [] []).fs.readFile
        FontWeight.regular.cachePath = some (Content.bytes "cached400") ∧
    ((∀ e ∈ (loadFonts ⟨fun _ _ => false, fun _ => false⟩
          ⟨⟨[(regularFontPath, Content.bytes "cached400")], []⟩, [], []⟩
          DEFAULT_FONT_SOURCE).2.instCalls,
        e ∈ (St.mk ⟨[(regularFontPath, Content.bytes "cached400")], []⟩ [] []).instCalls ∨
          e.2 ≠ FontWeight.regular.num) ∧
      ∀ fonts st', loadFonts ⟨fun _ _ => false, fun _ => false⟩
          ⟨⟨[(regularFontPath, Content.bytes "cached400")], []⟩, [], []⟩
          DEFAULT_FONT_SOURCE = (.ok fonts, st') →
        fonts.weight FontWeight.regular = Content.bytes "cached400") :=
  ⟨rfl, loadFonts_cached_weight_not_rederived ⟨fun _ _ => false, fun _ => false⟩
    ⟨⟨[(regularFontPath, Content.bytes "cached400")], []⟩, [], []⟩
    DEFAULT_FONT_SOURCE FontWeight.regular (Content.bytes "cached400") rfl⟩

/-! ## Cleanup error policy -/

theorem createSlideFont_unlink_irrel (i : String → Nat → Bool) (u₁ u₂ : String → Bool) :
    ∀ (st : St) (a b : String) (w : Nat),
      createSlideFont ⟨i, u₁⟩ st a b w = createSlideFont ⟨i, u₂⟩ st a b w :=
  fun _ _ _ _ => rfl

theorem ensureFont_unlink_irrel (i : String → Nat → Bool) (u₁ u₂ : String → Bool) :
    ∀ (st : St) (a b : String) (w : Nat),
      ensureFont ⟨i, u₁⟩ st a b w = ensureFont ⟨i, u₂⟩ st a b w := by
  intro st a b w
  unfold ensureFont
  rw [createSlideFont_unlink_irrel i u₁ u₂]

theorem loadFonts_unlink_irrel (i : String → Nat → Bool) (u₁ u₂ : String → Bool)
    (st : St) (src : String) :
    loadFonts ⟨i, u₁⟩ st src = loadFonts ⟨i, u₂⟩ st src := by
  simp only [loadFonts, ensureFont_unlink_irrel i u₁ u₂]

/-- C8: `cleanupSlides` never propagates an error to its caller: with the
slides directory absent it is the identity on the state (the thrown
`readdir` error is swallowed), and the success report of a whole
`generatePresentation` run is unchanged under any change to which
deletions fail — a cleanup failure never turns the run's report into a
failure. -/
theorem cleanupSlides_errors_swallowed (i : String → Nat → Bool)
    (u₁ u₂ : String → Bool) (fs : FS) (verbose : Bool) (fontPath : Option String)
    (dir : String) (st : St) (hdir : st.fs.hasDir dir = false) :
    cleanupSlides ⟨i, u₁⟩ st dir = st ∧
    (generatePresentation ⟨i, u₁⟩ fs verbose fontPath).1 =
      (generatePresentation ⟨i, u₂⟩ fs verbose fontPath).1 := by
  constructor
  · simp [cleanupSlides, FS.readdir?, hdir]
  · simp only [generatePresentation, ← loadFonts_unlink_irrel i u₁ u₂]
    split
    · rfl
    · split
      · rfl
      · split
        · rfl
        · split
          · rfl
          · split
            · rfl
            · rfl

/-- Witness for C8 at a concrete directory-absent state and concrete
environments. -/
theorem cleanupSlides_errors_swallowed_witness :
    (St.mk ⟨[], []⟩ [] []).fs.hasDir SLIDES_DIR = false ∧
    (cleanupSlides ⟨fun _ _ => false, fun _ => true⟩ ⟨⟨[], []⟩, [], []⟩ SLIDES_DIR =
        ⟨⟨[], []⟩, [], []⟩ ∧
      (generatePresentation ⟨fun _ _ => false, fun _ => true⟩ ⟨[], []⟩ false none).1 =
        (generatePresentation ⟨fun _ _ => false, fun _ => false⟩ ⟨[], []⟩ false none).1) :=
  ⟨rfl, cleanupSlides_errors_swallowed (fun _ _ => false) (fun _ => true) (fun _ => false)
    ⟨[], []⟩ false none SLIDES_DIR ⟨⟨[], []⟩, [], []⟩ rfl⟩

/-! ## Successful-run shape -/

/-- The pages a successful run embeds: one full-bleed page per slide of the
fixed seven-slide sequence, in generation order. -/
def expectedPages (fonts : Fonts) (lU lL : ImageSrc) : List Page :=
  (slidesList fonts lU lL).map (fun s => fullBleedPage (svgToPng s.2))

/-- Any run that reports success reached the end of the pipeline: its final
state is the cleanup of the state obtained by writing the seven slide
rasters and then the assembled seven-page document at `PDF_PATH`. -/
theorem generatePresentation_success_shape (env : Env) (fs : FS) (verbose : Bool)
    (fontPath : Option String) (st' : St)
    (h : generatePresentation env fs verbose fontPath = (true, st')) :
    ∃ (fonts : Fonts) (logoC lockedC : Content) (stF : St),
      loadFonts env (St.mkdirp ⟨fs, [], []⟩ SLIDES_DIR)
          (fontPath.getD DEFAULT_FONT_SOURCE) = (.ok fonts, stF) ∧
      st' = cleanupSlides env
        ((generateSlides stF
            (slidesList fonts (.pngB64 logoC) (.pngB64 lockedC))).write PDF_PATH
          (.pdf (expectedPages fonts (.pngB64 logoC) (.pngB64 lockedC))))
        SLIDES_DIR := by
  simp only [generatePresentation] at h
  split at h
  · exact absurd h (by simp)
  · split at h
    · exact absurd h (by simp)
    · rename_i fonts stF heqLF
      split at h
      · exact absurd h (by simp)
      · rename_i logoC heqLogo
        split at h
        · exact absurd h (by simp)
        · rename_i lockedC heqLocked
          split at h
          · exact absurd h (by simp)
          · rename_i stP heqPDF
            have hPDF : generatePDF
                (generateSlides stF (slidesList fonts (.pngB64 logoC) (.pngB64 lockedC)))
                (slidePaths (slidesList fonts (.pngB64 logoC) (.pngB64 lockedC)))
                PDF_PATH =
                (none, (generateSlides stF
                    (slidesList fonts (.pngB64 logoC) (.pngB64 lockedC))).write PDF_PATH
                  (.pdf (expectedPages fonts (.pngB64 logoC) (.pngB64 lockedC)))) := rfl
            rw [heqPDF] at hPDF
            simp only [Prod.mk.injEq, true_and] at hPDF h
            exact ⟨fonts, logoC, lockedC, stF, heqLF, by rw [← h, hPDF]⟩

theorem unlinkLoop_writes (env : Env) (dir : String) :
    ∀ (files : List String) (st : St),
      ((unlinkLoop env dir files st).2).writes = st.writes
  | [], _ => rfl
  | f :: rest, st => by
    simp only [unlinkLoop]
    split_ifs with h1 h2
    · rfl
    · exact unlinkLoop_writes env dir rest (st.remove (dir ++ "/" ++ f))
    · exact unlinkLoop_writes env dir rest st

theorem cleanupSlides_writes (env : Env) (st : St) (dir : String) :
    (cleanupSlides env st dir).writes = st.writes := by
  unfold cleanupSlides
  split
  · rfl
  · exact unlinkLoop_writes env dir _ st

theorem unlinkLoop_readFile_not_child (env : Env) (dir q : String)
    (hq : ∀ f : String, q ≠ dir ++ "/" ++ f) :
    ∀ (files : List String) (st : St),
      ((unlinkLoop env dir files st).2).fs.readFile q = st.fs.readFile q
  | [], _ => rfl
  | f :: rest, st => by
    simp only [unlinkLoop]
    split_ifs with h1 h2
    · rfl
    · rw [unlinkLoop_readFile_not_child env dir q hq rest
        (st.remove (dir ++ "/" ++ f))]
      exact FS.readFile_removeFile_ne _ _ _ (hq f)
    · exact unlinkLoop_readFile_not_child env dir q hq rest st

theorem cleanupSlides_readFile_not_child (env : Env) (st : St) (dir q : String)
    (hq : ∀ f : String, q ≠ dir ++ "/" ++ f) :
    (cleanupSlides env st dir).fs.readFile q = st.fs.readFile q := by
  unfold cleanupSlides
  split
  · rfl
  · exact unlinkLoop_readFile_not_child env dir q hq _ st

/-- The output document path is not a direct child of the slides
directory. -/
theorem pdf_not_in_slides_dir : ∀ f : String, PDF_PATH ≠ SLIDES_DIR ++ "/" ++ f := by
  intro f heq
  have hdata : PDF_PATH.data = (SLIDES_DIR ++ "/").data ++ f.data := by
    rw [heq]
    rfl
  have htake := congrArg (List.take 20) hdata
  rw [show (20 : Nat) = (SLIDES_DIR ++ "/").data.length from rfl, List.take_left] at htake
  exact absurd htake (by decide)

theorem generateSlides_writes :
    ∀ (slides : List (String × SvgDoc)) (st : St),
      (generateSlides st slides).writes = (slidePaths slides).reverse ++ st.writes
  | [], st => by simp [generateSlides, slidePaths]
  | (name, svg) :: rest, st => by
    simp only [generateSlides, slidePaths, List.map, List.reverse_cons]
    rw [generateSlides_writes rest (st.write (slidePngPath name) (svgToPng svg))]
    simp [slidePaths, St.write]

theorem loadFonts_writes_sub (env : Env) (st : St) (src : String) :
    ∀ p ∈ (loadFonts env st src).2.writes,
      p ∈ st.writes ∨ p = regularFontPath ∨ p = mediumFontPath ∨ p = boldFontPath := by
  intro p hp
  simp only [loadFonts] at hp
  rcases hE1 : ensureFont env (st.mkdirp CACHE_DIR) src regularFontPath 400 with ⟨oe1, st1⟩
  have e1 : (ensureFont env (st.mkdirp CACHE_DIR) src regularFontPath 400).2 = st1 := by
    rw [hE1]
  have w1 : ∀ q ∈ st1.writes, q ∈ st.writes ∨ q = regularFontPath := by
    intro q hq
    rcases ensureFont_writes env (st.mkdirp CACHE_DIR) src regularFontPath 400 with hw | hw
    · rw [e1] at hw
      rw [hw] at hq
      exact Or.inl hq
    · rw [e1] at hw
      rw [hw] at hq
      rcases List.mem_cons.mp hq with h | h
      · exact Or.inr h
      · exact Or.inl h
  rw [hE1] at hp
  cases oe1 with
  | some e1' =>
    rcases w1 p hp with h | h
    · exact Or.inl h
    · exact Or.inr (Or.inl h)
  | none =>
    dsimp only at hp
    rcases hE2 : ensureFont env st1 src mediumFontPath 500 with ⟨oe2, st2⟩
    have e2 : (ensureFont env st1 src mediumFontPath 500).2 = st2 := by rw [hE2]
    have w2 : ∀ q ∈ st2.writes,
        q ∈ st.writes ∨ q = regularFontPath ∨ q = mediumFontPath := by
      intro q hq
      rcases ensureFont_writes env st1 src mediumFontPath 500 with hw | hw
      · rw [e2] at hw
        rw [hw] at hq
        rcases w1 q hq with h | h
        · exact Or.inl h
        · exact Or.inr (Or.inl h)
      · rw [e2] at hw
        rw [hw] at hq
        rcases List.mem_cons.mp hq with h | h
        · exact Or.inr (Or.inr h)
        · rcases w1 q h with h' | h'
          · exact Or.inl h'
          · exact Or.inr (Or.inl h')
    rw [hE2] at hp
    cases oe2 with
    | some e2' =>
      rcases w2 p hp with h | h | h
      · exact Or.inl h
      · exact Or.inr (Or.inl h)
      · exact Or.inr (Or.inr (Or.inl h))
    | none =>
      dsimp only at hp
      rcases hE3 : ensureFont env st2 src boldFontPath 700 with ⟨oe3, st3⟩
      have e3 : (ensureFont env st2 src boldFontPath 700).2 = st3 := by rw [hE3]
      have w3 : ∀ q ∈ st3.writes,
          q ∈ st.writes ∨ q = regularFontPath ∨ q = mediumFontPath ∨ q = boldFontPath := by
        intro q hq
        rcases ensureFont_writes env st2 src boldFontPath 700 with hw | hw
        · rw [e3] at hw
          rw [hw] at hq
          rcases w2 q hq with h | h | h
          · exact Or.inl h
          · exact Or.inr (Or.inl h)
          · exact Or.inr (Or.inr (Or.inl h))
        · rw [e3] at hw
          rw [hw] at hq
          rcases List.mem_cons.mp hq with h | h
          · exact Or.inr (Or.inr (Or.inr h))
          · rcases w2 q h with h' | h' | h'
            · exact Or.inl h'
            · exact Or.inr (Or.inl h')
            · exact Or.inr (Or.inr (Or.inl h'))
      rw [hE3] at hp
      cases oe3 with
      | some e3' => exact w3 p hp
      | none =>
        dsimp only at hp
        rcases hr : st3.fs.readFile regularFontPath with - | r <;> rw [hr] at hp
        · exact w3 p hp
        rcases hm : st3.fs.readFile mediumFontPath with - | m <;> rw [hm] at hp
        · exact w3 p hp
        rcases hb : st3.fs.readFile boldFontPath with - | b <;> rw [hb] at hp
        · exact w3 p hp
        exact w3 p hp

/-- C2: every successful `generatePresentation` run leaves, at the
configured output path, the assembled document whose pages are exactly the
seven slides in the fixed generation order (title, Discord QR,
Nuit de l'Info QR, activities, escape game, association, subject QR), and
the run's write trace contains exactly one document write — the one at
`PDF_PATH`. -/
theorem generatePresentation_success_writes_seven_page_pdf (env : Env) (fs : FS)
    (verbose : Bool) (fontPath : Option String) (st' : St)
    (h : generatePresentation env fs verbose fontPath = (true, st')) :
    ∃ (fonts : Fonts) (logoC lockedC : Content),
      st'.fs.readFile PDF_PATH =
        some (.pdf (expectedPages fonts (.pngB64 logoC) (.pngB64 lockedC))) ∧
      (expectedPages fonts (.pngB64 logoC) (.pngB64 lockedC)).length = 7 ∧
      st'.writes.filter (fun p => strEndsWith p ".pdf") = [PDF_PATH] := by
  obtain ⟨fonts, logoC, lockedC, stF, hLF, hst⟩ :=
    generatePresentation_success_shape env fs verbose fontPath st' h
  have eF : (loadFonts env (St.mkdirp ⟨fs, [], []⟩ SLIDES_DIR)
      (fontPath.getD DEFAULT_FONT_SOURCE)).2 = stF := by rw [hLF]
  refine ⟨fonts, logoC, lockedC, ?_, rfl, ?_⟩
  · rw [hst, cleanupSlides_readFile_not_child env _ SLIDES_DIR PDF_PATH pdf_not_in_slides_dir]
    exact FS.readFile_writeFile_same _ _ _
  · have hF : stF.writes.filter (fun p => strEndsWith p ".pdf") = [] := by
      rw [List.filter_eq_nil]
      intro p hp
      have hp' : p ∈ (loadFonts env (St.mkdirp ⟨fs, [], []⟩ SLIDES_DIR)
          (fontPath.getD DEFAULT_FONT_SOURCE)).2.writes := by
        rw [eF]
        exact hp
      rcases loadFonts_writes_sub env (St.mkdirp ⟨fs, [], []⟩ SLIDES_DIR)
          (fontPath.getD DEFAULT_FONT_SOURCE) p hp' with h0 | h0 | h0 | h0
      · exact absurd h0 (List.not_mem_nil p)
      · rw [h0]
        decide
      · rw [h0]
        decide
      · rw [h0]
        decide
    rw [hst, cleanupSlides_writes]
    dsimp only [St.write]
    rw [generateSlides_writes, List.filter_cons, List.filter_append, hF,
      show (slidePaths (slidesList fonts (.pngB64 logoC)
        (.pngB64 lockedC))).reverse.filter (fun p => strEndsWith p ".pdf") = [] from rfl,
      show strEndsWith PDF_PATH ".pdf" = true from rfl]
    simp

/-- A file system holding a readable font source and the two logo assets
(everything a run needs to succeed with a working instancer). -/
def readyFS2 : FS :=
  ⟨[(DEFAULT_FONT_SOURCE, .bytes "font"), (LOGO_PATH, .bytes "logo"),
    (LOCKEDUP_LOGO_PATH, .bytes "locked")], []⟩

/-- Witness for C2: a concrete successful run. -/
theorem generatePresentation_success_writes_seven_page_pdf_witness :
    generatePresentation ⟨fun _ _ => false, fun _ => false⟩ readyFS2 false none =
      (true, (generatePresentation ⟨fun _ _ => false, fun _ => false⟩ readyFS2 false none).2) ∧
    ∃ (fonts : Fonts) (logoC lockedC : Content),
      ((generatePresentation ⟨fun _ _ => false, fun _ => false⟩ readyFS2 false none).2).fs.readFile
          PDF_PATH =
        some (.pdf (expectedPages fonts (.pngB64 logoC) (.pngB64 lockedC))) ∧
      (expectedPages fonts (.pngB64 logoC) (.pngB64 lockedC)).length = 7 ∧
      ((generatePresentation ⟨fun _ _ => false, fun _ => false⟩ readyFS2 false none).2).writes.filter
          (fun p => strEndsWith p ".pdf") = [PDF_PATH] :=
  ⟨rfl, generatePresentation_success_writes_seven_page_pdf
    ⟨fun _ _ => false, fun _ => false⟩ readyFS2 false none _ rfl⟩

/-! ## Cleanup postcondition machinery -/

theorem FS.readFile_removeFile_none (fs : FS) (p q : String)
    (h : fs.readFile p = none) : (fs.removeFile q).readFile p = none := by
  by_cases hpq : p = q
  · subst hpq
    exact FS.readFile_removeFile_same fs p
  · rw [FS.readFile_removeFile_ne fs q p hpq]
    exact h

theorem isPrefixOf?_some_eq :
    ∀ (l₁ l₂ rest : List Char), l₁.isPrefixOf? l₂ = some rest → l₂ = l₁ ++ rest
  | [], l₂, rest => by
    intro h
    simp only [List.isPrefixOf?, Option.some.injEq] at h
    rw [h, List.nil_append]
  | _ :: _, [], rest => by
    intro h
    simp [List.isPrefixOf?] at h
  | a :: as, b :: bs, rest => by
    intro h
    simp only [List.isPrefixOf?] at h
    by_cases hab : (a == b) = true
    · rw [if_pos hab] at h
      rw [List.cons_append, ← isPrefixOf?_some_eq as bs rest h, eq_of_beq hab]
    · rw [if_neg hab] at h
      exact absurd h (by simp)

theorem childNameOf_eq (dir p n : String) (h : childNameOf dir p = some n) :
    p = dir ++ "/" ++ n := by
  unfold childNameOf at h
  rcases hp : (dir ++ "/").data.isPrefixOf? p.data with - | rest
  · rw [hp] at h
    exact absurd h (by simp)
  · rw [hp] at h
    dsimp only at h
    by_cases hcond : (rest = [] ∨ '/' ∈ rest)
    · rw [if_pos hcond] at h
      exact absurd h (by simp)
    · rw [if_neg hcond] at h
      have hn : String.mk rest = n := Option.some.inj h
      have hdata := isPrefixOf?_some_eq _ _ _ hp
      subst hn
      apply String.ext
      rw [hdata]
      rfl

theorem unlinkLoop_files_sub (env : Env) (dir : String) :
    ∀ (files : List String) (st : St) (x : String × Content),
      x ∈ ((unlinkLoop env dir files st).2).fs.files → x ∈ st.fs.files
  | [], _, _ => fun h => h
  | f :: rest, st, x => by
    simp only [unlinkLoop]
    split_ifs with h1 h2
    · exact fun h => h
    · intro h
      exact List.mem_of_mem_filter
        (unlinkLoop_files_sub env dir rest (st.remove (dir ++ "/" ++ f)) x h)
    · exact unlinkLoop_files_sub env dir rest st x

theorem unlinkLoop_readFile_none (env : Env) (dir : String) :
    ∀ (files : List String) (st : St) (q : String),
      st.fs.readFile q = none → ((unlinkLoop env dir files st).2).fs.readFile q = none
  | [], _, _ => fun h => h
  | f :: rest, st, q => by
    simp only [unlinkLoop]
    split_ifs with h1 h2
    · exact fun h => h
    · intro h
      exact unlinkLoop_readFile_none env dir rest _ q
        (FS.readFile_removeFile_none _ _ _ h)
    · exact unlinkLoop_readFile_none env dir rest st q

theorem unlinkLoop_kills_pngs (env : Env) (dir : String)
    (hu : ∀ p, env.unlinkFails p = false) :
    ∀ (files : List String) (st : St) (n : String),
      n ∈ files → strEndsWith n ".png" = true →
      ((unlinkLoop env dir files st).2).fs.readFile (dir ++ "/" ++ n) = none
  | [], _, n => by
    intro h _
    exact absurd h (List.not_mem_nil n)
  | f :: rest, st, n => by
    intro hn hpng
    simp only [unlinkLoop]
    split_ifs with h1 h2
    · rw [hu (dir ++ "/" ++ f)] at h2
      exact absurd h2 (by simp)
    · rcases List.mem_cons.mp hn with rfl | hn'
      · exact unlinkLoop_readFile_none env dir rest _ _
          (FS.readFile_removeFile_same _ _)
      · exact unlinkLoop_kills_pngs env dir hu rest _ n hn' hpng
    · rcases List.mem_cons.mp hn with rfl | hn'
      · exact absurd hpng h1
      · exact unlinkLoop_kills_pngs env dir hu rest st n hn' hpng

/-- Cleanup with an existing directory and no failing deletion leaves no
`.png` name in the slides directory's listing. -/
theorem cleanupSlides_no_pngs (env : Env) (st : St) (dir : String)
    (hdir : st.fs.hasDir dir = true) (hu : ∀ p, env.unlinkFails p = false) :
    ∀ n ∈ (cleanupSlides env st dir).fs.readdirNames dir,
      strEndsWith n ".png" = false := by
  intro n hn
  by_cases hpng : strEndsWith n ".png" = true
  case neg => simpa using hpng
  exfalso
  have hcl : cleanupSlides env st dir =
      (unlinkLoop env dir (st.fs.readdirNames dir) st).2 := by
    unfold cleanupSlides FS.readdir?
    rw [if_pos hdir]
  rw [hcl] at hn
  unfold FS.readdirNames at hn
  rcases List.mem_filterMap.mp (List.mem_dedup.mp hn) with ⟨x, hx, hxn⟩
  have hx0 : x ∈ st.fs.files := unlinkLoop_files_sub env dir _ st x hx
  have hmem : n ∈ st.fs.readdirNames dir := by
    unfold FS.readdirNames
    exact List.mem_dedup.mpr (List.mem_filterMap.mpr ⟨x, hx0, hxn⟩)
  have hkilled : ((unlinkLoop env dir (st.fs.readdirNames dir) st).2).fs.readFile
      (dir ++ "/" ++ n) = none :=
    unlinkLoop_kills_pngs env dir hu _ st n hmem hpng
  have hx1 : x.1 = dir ++ "/" ++ n := childNameOf_eq dir x.1 n hxn
  rw [← hx1] at hkilled
  unfold FS.readFile at hkilled
  rw [Option.map_eq_none'] at hkilled
  rw [List.find?_eq_none] at hkilled
  exact hkilled x hx (by simp)

theorem generateSlides_dirs :
    ∀ (slides : List (String × SvgDoc)) (st : St),
      (generateSlides st slides).fs.dirs = st.fs.dirs
  | [], _ => rfl
  | (name, svg) :: rest, st => by
    simp only [generateSlides]
    rw [generateSlides_dirs rest (st.write (slidePngPath name) (svgToPng svg))]
    rfl

theorem loadFonts_dirs (env : Env) (st : St) (src : String) :
    (loadFonts env st src).2.fs.dirs = CACHE_DIR :: st.fs.dirs := by
  simp only [loadFonts]
  rcases hE1 : ensureFont env (st.mkdirp CACHE_DIR) src regularFontPath 400 with ⟨oe1, st1⟩
  have e1 : (ensureFont env (st.mkdirp CACHE_DIR) src regularFontPath 400).2 = st1 := by
    rw [hE1]
  have d1 : st1.fs.dirs = CACHE_DIR :: st.fs.dirs := by
    rw [← e1, ensureFont_dirs]
    rfl
  cases oe1 with
  | some e => exact d1
  | none =>
    dsimp only
    rcases hE2 : ensureFont env st1 src mediumFontPath 500 with ⟨oe2, st2⟩
    have e2 : (ensureFont env st1 src mediumFontPath 500).2 = st2 := by rw [hE2]
    have d2 : st2.fs.dirs = CACHE_DIR :: st.fs.dirs := by
      rw [← e2, ensureFont_dirs, d1]
    cases oe2 with
    | some e => exact d2
    | none =>
      dsimp only
      rcases hE3 : ensureFont env st2 src boldFontPath 700 with ⟨oe3, st3⟩
      have e3 : (ensureFont env st2 src boldFontPath 700).2 = st3 := by rw [hE3]
      have d3 : st3.fs.dirs = CACHE_DIR :: st.fs.dirs := by
        rw [← e3, ensureFont_dirs, d2]
      cases oe3 with
      | some e => exact d3
      | none =>
        dsimp only
        rcases hr : st3.fs.readFile regularFontPath with - | r
        · exact d3
        rcases hm : st3.fs.readFile mediumFontPath with - | m
        · exact d3
        rcases hb : st3.fs.readFile boldFontPath with - | b
        · exact d3
        exact d3

/-- C9 (amended): after every `generatePresentation` run that returns
success and in which no deletion fails, the temporary slide-raster
directory's listing contains zero `.png` names. -/
theorem generatePresentation_success_no_unlink_failure_zero_pngs
    (i : String → Nat → Bool) (fs : FS) (verbose : Bool) (fontPath : Option String)
    (st' : St)
    (h : generatePresentation ⟨i, fun _ => false⟩ fs verbose fontPath = (true, st')) :
    ∀ n ∈ st'.fs.readdirNames SLIDES_DIR, strEndsWith n ".png" = false := by
  obtain ⟨fonts, logoC, lockedC, stF, hLF, hst⟩ :=
    generatePresentation_success_shape ⟨i, fun _ => false⟩ fs verbose fontPath st' h
  have eF : (loadFonts ⟨i, fun _ => false⟩ (St.mkdirp ⟨fs, [], []⟩ SLIDES_DIR)
      (fontPath.getD DEFAULT_FONT_SOURCE)).2 = stF := by rw [hLF]
  have hdirF : stF.fs.dirs = CACHE_DIR :: SLIDES_DIR :: fs.dirs := by
    rw [← eF, loadFonts_dirs]
    rfl
  have hdirP : ((generateSlides stF
      (slidesList fonts (.pngB64 logoC) (.pngB64 lockedC))).write PDF_PATH
        (.pdf (expectedPages fonts (.pngB64 logoC)
          (.pngB64 lockedC)))).fs.dirs = CACHE_DIR :: SLIDES_DIR :: fs.dirs := by
    have : ((generateSlides stF
        (slidesList fonts (.pngB64 logoC) (.pngB64 lockedC))).write PDF_PATH
          (.pdf (expectedPages fonts (.pngB64 logoC) (.pngB64 lockedC)))).fs.dirs =
        (generateSlides stF
          (slidesList fonts (.pngB64 logoC) (.pngB64 lockedC))).fs.dirs := rfl
    rw [this, generateSlides_dirs, hdirF]
  have hhasDir : ((generateSlides stF
      (slidesList fonts (.pngB64 logoC) (.pngB64 lockedC))).write PDF_PATH
        (.pdf (expectedPages fonts (.pngB64 logoC)
          (.pngB64 lockedC)))).fs.hasDir SLIDES_DIR = true := by
    unfold FS.hasDir
    rw [hdirP]
    rfl
  intro n hn
  rw [hst] at hn
  exact cleanupSlides_no_pngs ⟨i, fun _ => false⟩ _ SLIDES_DIR hhasDir (fun _ => rfl) n hn

/-- A file system holding a readable font source and the two logo assets. -/
def readyFS9 : FS :=
  ⟨[(DEFAULT_FONT_SOURCE, .bytes "font"), (LOGO_PATH, .bytes "logo"),
    (LOCKEDUP_LOGO_PATH, .bytes "locked")], []⟩

/-- An environment whose `unlink` fails exactly on the title slide's
raster path. -/
def failEnv9 : Env :=
  ⟨fun _ _ => false, fun p => p == SLIDES_DIR ++ "/01-title.png"⟩

/-- C9 counterexample: a run in which the deletion of `01-title.png` fails
returns success (the cleanup error is swallowed), yet the slides directory
still lists that `.png` afterwards — so "after every run that returns
success the directory contains zero image files" is false as stated. -/
theorem generatePresentation_success_with_leftover_png :
    (generatePresentation failEnv9 readyFS9 false none).1 = true ∧
    ((generatePresentation failEnv9 readyFS9 false none).2.fs.readdirNames
        SLIDES_DIR).filter (fun n => strEndsWith n ".png") = ["01-title.png"] := by
  constructor
  · decide
  · decide

/-- Witness for the amended C9 at a concrete successful run with no
failing deletion. -/
theorem generatePresentation_success_no_unlink_failure_zero_pngs_witness :
    generatePresentation ⟨fun _ _ => false, fun _ => false⟩ readyFS9 false none =
      (true, (generatePresentation ⟨fun _ _ => false, fun _ => false⟩
        readyFS9 false none).2) ∧
    ∀ n ∈ ((generatePresentation ⟨fun _ _ => false, fun _ => false⟩
        readyFS9 false none).2).fs.readdirNames SLIDES_DIR,
      strEndsWith n ".png" = false :=
  ⟨rfl, generatePresentation_success_no_unlink_failure_zero_pngs
    (fun _ _ => false) readyFS9 false none _ rfl⟩
